import Mathlib

/-!
Verification of the Relational Monte Carlo core (`apriori`) against its
natural-language specification.

The Python sources under `apriori/` are shallowly embedded below:

* pure numeric code is translated to `ℚ` (or `ℝ` where the original uses
  `math.log`), with Python's `int()` truncation and `round(x, n)` made
  explicit;
* the eight shadow-value dimensions become the inductive type `ValueKey`;
* fallible code (`json.loads` raising `JSONDecodeError`) returns `Except`;
* external effects (the injected LangChain model, `uuid4`, the process-global
  `numpy` generator) are modelled as explicit deterministic environments.

Definitions are named after the Python functions they embed.
-/

namespace Apriori

/-- The eight fixed value dimensions of a shadow vector
(`SHADOW_VALUE_KEYS` in `apriori/models/shadow_vector.py`). -/
inductive ValueKey where
  | autonomy
  | security
  | achievement
  | intimacy
  | novelty
  | stability
  | power
  | belonging
  deriving DecidableEq, Repr, Fintype

/-- The value keys in Python's `sorted(SHADOW_VALUE_KEYS)` order
(alphabetical), used by `ToMTracker._to_distribution` for a deterministic
vector orientation. -/
def sortedValueKeys : List ValueKey :=
  [.achievement, .autonomy, .belonging, .intimacy, .novelty, .power,
   .security, .stability]

/-- The JSON name of each value dimension, as used in the LLM prompts and
responses. -/
def keyName : ValueKey → String
  | .autonomy => "autonomy"
  | .security => "security"
  | .achievement => "achievement"
  | .intimacy => "intimacy"
  | .novelty => "novelty"
  | .stability => "stability"
  | .power => "power"
  | .belonging => "belonging"

/-- Python's `int()` applied to a rational: truncation toward zero. -/
def pyInt (q : ℚ) : ℤ :=
  if 0 ≤ q then ⌊q⌋ else ⌈q⌉

/-- Python's `round(x, d)` on a rational, modelled as round-half-up.
(CPython rounds halves to even; the two agree except at exact midpoints,
which play no role in any statement below.) -/
def pyRound (d : ℕ) (x : ℚ) : ℚ :=
  (⌊x * (10 : ℚ) ^ d + 1 / 2⌋ : ℚ) / (10 : ℚ) ^ d

/-- The attachment styles (`AttachmentStyle` in
`apriori/models/shadow_vector.py`). -/
inductive AttachmentStyle where
  | secure
  | anxious
  | avoidant
  | fearful
  deriving DecidableEq, Repr

/-- Ground-truth latent state of an agent (`ShadowVector`,
`apriori/models/shadow_vector.py`).  The `values` dict is embedded as a total
function on the eight keys; the pydantic validator guarantees exactly those
keys are present. -/
structure ShadowVector where
  agent_id : String
  values : ValueKey → ℚ
  attachment_style : AttachmentStyle
  fear_architecture : List String
  linguistic_signature : List String
  entropy_tolerance : ℚ
  communication_style : String

-- ---------------------------------------------------------------------------
-- StochasticEventGenerator (apriori/core/event_generator.py)
-- ---------------------------------------------------------------------------

/-- Severity scaling and clamping from
`StochasticEventGenerator._sample_severity`: the distribution-specific raw
draw (`paretovariate`, `random` or `betavariate`) is multiplied by
`min(vulnerability_score, 1.5)` and the result clamped to `[0.05, 0.98]`.
`raw` stands for the draw, which the claim quantifies over. -/
def sampleSeverity (raw vulnerability_score : ℚ) : ℚ :=
  max (5 / 100) (min (98 / 100) (raw * min vulnerability_score (3 / 2)))

/-- The fear → axis table of `event_generator._FEAR_TO_AXIS`. -/
def fearToAxis : String → Option ValueKey
  | "abandonment" => some .belonging
  | "failure" => some .achievement
  | "engulfment" => some .autonomy
  | "rejection" => some .intimacy
  | "loss" => some .security
  | "inadequacy" => some .achievement
  | "betrayal" => some .intimacy
  | "instability" => some .stability
  | "powerlessness" => some .power
  | "isolation" => some .belonging
  | "irrelevance" => some .power
  | "vulnerability" => some .security
  | _ => none

/-- One step of Python's `max(d, key=d.get)`: a later key replaces the
current best only on a strictly larger score, so ties keep the earlier key,
exactly as CPython's `max` does. -/
def argmaxStep (score : ValueKey → ℚ) (acc : Option ValueKey)
    (k : ValueKey) : Option ValueKey :=
  match acc with
  | none => some k
  | some b => if score b < score k then some k else some b

/-- Python's `max(d, key=d.get)`: first key of maximal score in iteration
order. -/
def argmaxKey (score : ValueKey → ℚ) (l : List ValueKey) : Option ValueKey :=
  l.foldl (argmaxStep score) none

/-- The joint-stakes score assigned to one axis by
`StochasticEventGenerator.identify_shared_vulnerability`: the Hadamard
product of the two value vectors, boosted `×1.4` once per distinct shared
fear mapping to this axis, then amplified by the attachment-resonance rules
(`both anxious → ×1.3` on intimacy/belonging; `both avoidant → ×1.3` on
autonomy; anxious with avoidant → `×1.6` on intimacy). -/
def jointStakes (a b : ShadowVector) (k : ValueKey) : ℚ :=
  let base := a.values k * b.values k
  let sharedFears := a.fear_architecture.dedup.filter
    (fun f => b.fear_architecture.contains f)
  let boosts := (sharedFears.filter (fun f => fearToAxis f = some k)).length
  let boosted := base * (14 / 10) ^ boosts
  if a.attachment_style = .anxious ∧ b.attachment_style = .anxious then
    if k = .intimacy ∨ k = .belonging then boosted * (13 / 10) else boosted
  else if a.attachment_style = .avoidant ∧ b.attachment_style = .avoidant then
    if k = .autonomy then boosted * (13 / 10) else boosted
  else if (a.attachment_style = .anxious ∨ b.attachment_style = .anxious) ∧
      (a.attachment_style = .avoidant ∨ b.attachment_style = .avoidant) then
    if k = .intimacy then boosted * (16 / 10) else boosted
  else boosted

/-- `StochasticEventGenerator.identify_shared_vulnerability`: argmax of the
joint stakes over the value keys.  `keyOrder` is the iteration order of the
`SHADOW_VALUE_KEYS` frozenset (an implementation detail of the CPython hash
seed); the claims proved below hold for every enumeration of the eight keys,
because their maxima are unique.  The third component of the Python return
value, a one-sentence formatted explanation, carries no further data and is
omitted. -/
def identifySharedVulnerability (keyOrder : List ValueKey)
    (a b : ShadowVector) : Option (ValueKey × ℚ) :=
  (argmaxKey (jointStakes a b) keyOrder).map
    (fun ax => (ax, jointStakes a b ax))

-- ---------------------------------------------------------------------------
-- BeliefCollapseDetector._project_turns_until_collapse
-- (apriori/core/collapse_detector.py)
-- ---------------------------------------------------------------------------

/-- `BeliefCollapseDetector._project_turns_until_collapse`.  `risks` is the
list of `overall_collapse_risk` values recorded in `_collapse_history`
(oldest first); `current` is the current composite risk.  Faithful to the
source: fewer than 3 recorded assessments yield `None`; the velocity is the
mean of consecutive deltas over the last five risks; `None` when velocity
`≤ 0.01`; otherwise `max(1, int(remaining / velocity))` with Python's
truncating `int`. -/
def projectTurnsUntilCollapse (risks : List ℚ) (current : ℚ) : Option ℤ :=
  if risks.length < 3 then none
  else
    let recent := risks.drop (risks.length - 5)
    if recent.length < 2 then none
    else
      let deltas := List.zipWith (fun a b => a - b) recent.tail recent
      let velocity := deltas.sum / (deltas.length : ℚ)
      if velocity ≤ 1 / 100 then none
      else some (max 1 (pyInt ((1 - current) / velocity)))

/-- The same projection stated the way the (amended) specification reads:
the velocity over the last five risks telescopes to
`(last − first) / (count − 1)`, and the projection is
`max(1, int((1 − current) / velocity))` whenever at least three assessments
exist and the velocity exceeds `0.01`, `None` otherwise. -/
def turnsUntilCollapseSpec (risks : List ℚ) (current : ℚ) : Option ℤ :=
  if risks.length < 3 then none
  else
    let recent := risks.drop (risks.length - 5)
    let velocity :=
      (recent.getLastD 0 - recent.headD 0) / ((recent.length - 1 : ℕ) : ℚ)
    if 1 / 100 < velocity then some (max 1 (pyInt ((1 - current) / velocity)))
    else none

-- ---------------------------------------------------------------------------
-- Theorems: C5 and C6
-- ---------------------------------------------------------------------------

/-- Consecutive deltas telescope: summing `recent[i+1] - recent[i]`
gives `last - first`. -/
theorem zipWith_sub_tail_sum (a : ℚ) (t : List ℚ) :
    (List.zipWith (fun x y => x - y) t (a :: t)).sum = t.getLastD a - a := by
  induction t generalizing a with
  | nil => simp
  | cons b t' ih =>
    simp only [List.zipWith_cons_cons, List.sum_cons, ih b,
      List.getLastD_cons]
    ring

/-- C6.  For every configured severity distribution, every raw draw and every
vulnerability score, `StochasticEventGenerator._sample_severity` returns a
value in `[0.05, 0.98]`: the clamp is applied after scaling, so the bound is
unconditional. -/
theorem sampleSeverity_mem_range (raw vuln : ℚ) :
    5 / 100 ≤ sampleSeverity raw vuln ∧ sampleSeverity raw vuln ≤ 98 / 100 := by
  unfold sampleSeverity
  constructor
  · exact le_max_left _ _
  · exact max_le (by norm_num) (min_le_left _ _)

/-- C5 (counterexample).  With recorded composite risks
`[0.1, 0.2, 0.3, 0.4, 0.5]` and current risk `0.55`, the velocity is
`0.1 > 0.01`, yet the detector reports `4` turns until collapse while the
claimed ceiling `⌈(1 − 0.55) / 0.1⌉` is `5`: Python's `int()` truncates, it
does not take a ceiling. -/
theorem projectTurnsUntilCollapse_ne_ceiling :
    projectTurnsUntilCollapse
        [1/10, 2/10, 3/10, 4/10, 5/10] (11/20) = some 4 ∧
      (1/100 : ℚ) < 1/10 ∧
      ⌈((1 - 11/20 : ℚ) / (1/10))⌉ = 5 := by
  refine ⟨?_, by norm_num, ?_⟩
  · with_unfolding_all decide
  · with_unfolding_all decide

/-- C5 (amended).  The projection equals the spec-style formulation in which
the velocity is the telescoped mean `(last − first)/(n − 1)` over the last
five risks, the result is `max(1, int((1 − current)/velocity))` (truncating
`int`, not a ceiling) when at least three assessments exist and the velocity
exceeds `0.01`, and `None` otherwise — in particular `None` whenever fewer
than three assessments exist, regardless of velocity. -/
theorem projectTurnsUntilCollapse_eq_spec (risks : List ℚ) (current : ℚ) :
    projectTurnsUntilCollapse risks current =
      turnsUntilCollapseSpec risks current := by
  simp only [projectTurnsUntilCollapse, turnsUntilCollapseSpec]
  by_cases h3 : risks.length < 3
  · rw [if_pos h3, if_pos h3]
  · rw [if_neg h3, if_neg h3]
    push_neg at h3
    have hlen : (risks.drop (risks.length - 5)).length = min 5 risks.length := by
      rw [List.length_drop]; omega
    have h2 : ¬ (risks.drop (risks.length - 5)).length < 2 := by omega
    rw [if_neg h2]
    obtain ⟨a, t, hat⟩ : ∃ a t, risks.drop (risks.length - 5) = a :: t := by
      cases hx : risks.drop (risks.length - 5) with
      | nil => rw [hx] at hlen; simp at hlen; omega
      | cons a t => exact ⟨a, t, rfl⟩
    rw [hat]
    have hsum : (List.zipWith (fun x y => x - y) (a :: t).tail (a :: t)).sum =
        (a :: t).getLastD 0 - (a :: t).headD 0 := by
      rw [List.tail_cons, zipWith_sub_tail_sum a t, List.headD_cons]
      cases t with
      | nil => simp
      | cons b t' =>
        rw [List.getLastD_cons]
        rw [List.getLastD_cons]
        rw [List.getLastD_cons]
    have hdlen :
        (List.zipWith (fun x y => x - y) (a :: t).tail (a :: t)).length =
          (a :: t).length - 1 := by
      rw [List.tail_cons, List.length_zipWith, List.length_cons]
      omega
    rw [hsum, hdlen]
    rcases le_or_lt (((a :: t).getLastD 0 - (a :: t).headD 0) /
        (((a :: t).length - 1 : ℕ) : ℚ)) (1 / 100) with hv | hv
    · rw [if_pos hv, if_neg (not_lt.mpr hv)]
    · rw [if_neg (not_le.mpr hv), if_pos hv]

/-- C5 (witness for the amended equality at a concrete input): the detector
and the spec-style formulation agree on the counterexample history. -/
theorem projectTurnsUntilCollapse_eq_spec_example :
    projectTurnsUntilCollapse [1/10, 2/10, 3/10, 4/10, 5/10] (11/20) =
      turnsUntilCollapseSpec [1/10, 2/10, 3/10, 4/10, 5/10] (11/20) :=
  projectTurnsUntilCollapse_eq_spec _ _

-- ---------------------------------------------------------------------------
-- TimelineResult and RelationalProbabilityDistribution
-- (apriori/models/simulation.py)
-- ---------------------------------------------------------------------------

/-- One turn of the recorded conversation (`{role, content, timestamp}`).
Wall-clock timestamps are modelled as a logical clock. -/
structure Turn where
  role : String
  content : String
  timestamp : ℕ
  deriving DecidableEq, Repr

/-- One belief snapshot derived from a collapse assessment in
`run_simulation` (`{turn, risk, risk_level}`; the signal breakdown is not
needed by any claim). -/
structure BeliefSnapshot where
  turn : ℕ
  risk : ℚ
  risk_level : String
  deriving DecidableEq, Repr

/-- `TimelineResult` (apriori/models/simulation.py).  `timeline_id` is the
`str(uuid4())` default-factory value; callers of the constructor below pass
the drawn uuid explicitly, modelling the process-global entropy source. -/
structure TimelineResult where
  timeline_id : String
  seed : ℤ
  pair_id : String
  crisis_severity : ℚ
  crisis_axis : String
  reached_homeostasis : Bool
  narrative_elasticity : ℚ
  final_resilience_score : ℚ
  antifragile : Bool
  turns_total : ℕ
  belief_collapse_events : ℕ
  linguistic_convergence_final : ℚ
  full_transcript : List Turn
  belief_state_snapshots : List BeliefSnapshot
  deriving DecidableEq, Repr

/-- The sorted severity list used by `p20_homeostasis` / `p80_homeostasis`
(Python's ascending `sorted(...)`). -/
def sortedSeverities (tls : List TimelineResult) : List ℚ :=
  (tls.map (fun t => t.crisis_severity)).insertionSort (· ≤ ·)

/-- The p20 severity threshold: `severities[len // 5]` when at least five
timelines exist, else `0.0`
(`RelationalProbabilityDistribution.p20_homeostasis`). -/
def p20Threshold (tls : List TimelineResult) : ℚ :=
  let s := sortedSeverities tls
  if 5 ≤ s.length then s.getD (s.length / 5) 0 else 0

/-- `RelationalProbabilityDistribution.p20_homeostasis`: the homeostasis rate
over timelines whose severity strictly exceeds the p20 threshold; `0.0` for
an empty distribution or an empty cohort. -/
def p20Homeostasis (tls : List TimelineResult) : ℚ :=
  if tls.isEmpty then 0
  else
    let above := tls.filter (fun t => p20Threshold tls < t.crisis_severity)
    if above.isEmpty then 0
    else (above.countP (fun t => t.reached_homeostasis) : ℚ) / (above.length : ℚ)

/-- The index `int(len(severities) * 0.8)` of `p80_homeostasis`.  (The float
product `n * 0.8` truncates to `⌊4n/5⌋` for every list length that can occur;
`0.8` is slightly above `4/5` in binary, so the truncation never drops below
the exact value.) -/
def p80Index (n : ℕ) : ℕ := 4 * n / 5

/-- The p80 severity threshold: `severities[idx]`, falling back to the last
element when the index is out of range
(`RelationalProbabilityDistribution.p80_homeostasis`). -/
def p80Threshold (tls : List TimelineResult) : ℚ :=
  let s := sortedSeverities tls
  if p80Index s.length < s.length then s.getD (p80Index s.length) 0
  else s.getD (s.length - 1) 0

/-- `RelationalProbabilityDistribution.p80_homeostasis`: the homeostasis rate
over timelines whose severity strictly exceeds the p80 threshold. -/
def p80Homeostasis (tls : List TimelineResult) : ℚ :=
  if tls.isEmpty then 0
  else
    let above := tls.filter (fun t => p80Threshold tls < t.crisis_severity)
    if above.isEmpty then 0
    else (above.countP (fun t => t.reached_homeostasis) : ℚ) / (above.length : ℚ)

/-- A timeline result with the given severity and homeostasis flag and
neutral values everywhere else (used for concrete inputs). -/
def mkTL (sev : ℚ) (homeo : Bool) : TimelineResult :=
  { timeline_id := "t", seed := 0, pair_id := "p", crisis_severity := sev,
    crisis_axis := "security", reached_homeostasis := homeo,
    narrative_elasticity := 0, final_resilience_score := 0,
    antifragile := false, turns_total := 0, belief_collapse_events := 0,
    linguistic_convergence_final := 0, full_transcript := [],
    belief_state_snapshots := [] }

/-- Ten timelines with distinct severities `0.1 … 1.0` where only the most
severe one reached homeostasis. -/
def c4Timelines : List TimelineResult :=
  [mkTL (1/10) false, mkTL (2/10) false, mkTL (3/10) false,
   mkTL (4/10) false, mkTL (5/10) false, mkTL (6/10) false,
   mkTL (7/10) false, mkTL (8/10) false, mkTL (9/10) false,
   mkTL 1 true]

/-- C4 (counterexample).  On `c4Timelines` the p20 cohort is the seven
timelines above severity `0.3` (one of which reached homeostasis, rate
`1/7`), while the p80 cohort is the single timeline above severity `0.9`
(rate `1`): `p20_homeostasis < p80_homeostasis`, refuting the claim that
`p20 ≥ p80` holds for every distribution. -/
theorem p20_lt_p80_example :
    p20Homeostasis c4Timelines = 1/7 ∧ p80Homeostasis c4Timelines = 1 ∧
      ¬ p80Homeostasis c4Timelines ≤ p20Homeostasis c4Timelines := by
  refine ⟨?_, ?_, ?_⟩ <;> with_unfolding_all decide

/-- C4 (amended).  What does hold for every distribution with non-negative
severities (pydantic enforces `crisis_severity ≥ 0`): the p80 cohort is a
sub-cohort of the p20 cohort — the p80 threshold is at least the p20
threshold, so every timeline counted by `p80_homeostasis` is counted by
`p20_homeostasis`.  The two rates themselves are not comparable in general. -/
theorem p80_cohort_subset_p20 (tls : List TimelineResult)
    (hpos : ∀ t ∈ tls, 0 ≤ t.crisis_severity) :
    ∀ t ∈ tls, p80Threshold tls < t.crisis_severity →
      p20Threshold tls < t.crisis_severity := by
  intro t _ h80
  refine lt_of_le_of_lt ?_ h80
  have hs : (sortedSeverities tls).Sorted (· ≤ ·) :=
    List.sorted_insertionSort _ _
  have hmem : ∀ x ∈ sortedSeverities tls, 0 ≤ x := by
    intro x hx
    have hx' : x ∈ tls.map (fun t => t.crisis_severity) :=
      (List.perm_insertionSort _ _).mem_iff.mp hx
    obtain ⟨u, hu, rfl⟩ := List.mem_map.mp hx'
    exact hpos u hu
  set s := sortedSeverities tls with hsdef
  unfold p20Threshold p80Threshold
  rw [← hsdef]
  by_cases h5 : 5 ≤ s.length
  · have hn : 0 < s.length := by omega
    have hi80 : p80Index s.length < s.length := by
      unfold p80Index; omega
    rw [if_pos h5, if_pos hi80]
    have hi20 : s.length / 5 < s.length := by omega
    rw [List.getD_eq_getElem s 0 hi20, List.getD_eq_getElem s 0 hi80]
    have hle : s.length / 5 ≤ p80Index s.length := by
      unfold p80Index; omega
    exact hs.rel_get_of_le (by exact hle)
  · rw [if_neg h5]
    by_cases hi80 : p80Index s.length < s.length
    · rw [if_pos hi80]
      rw [List.getD_eq_getElem s 0 hi80]
      exact hmem _ (List.getElem_mem _)
    · rw [if_neg hi80]
      by_cases hnil : s.length = 0
      · have : s = [] := List.length_eq_zero.mp hnil
        simp [this]
      · have hlast : s.length - 1 < s.length := by omega
        rw [List.getD_eq_getElem s 0 hlast]
        exact hmem _ (List.getElem_mem _)

/-- C4 (witness for the amended subset property, at the concrete
counterexample distribution): the most severe timeline is in the p80 cohort,
hence also in the p20 cohort. -/
theorem p80_cohort_subset_p20_witness :
    p20Threshold c4Timelines < (mkTL 1 true).crisis_severity :=
  p80_cohort_subset_p20 c4Timelines (by with_unfolding_all decide)
    (mkTL 1 true) (by with_unfolding_all decide)
    (by with_unfolding_all decide)

-- ---------------------------------------------------------------------------
-- RelationalMonteCarlo.run_ensemble failure handling
-- (apriori/core/monte_carlo.py)
-- ---------------------------------------------------------------------------

/-- One parameter set generated by
`RelationalMonteCarlo._generate_parameter_sets`. -/
structure ParamSet where
  seed : ℤ
  severity : ℚ
  crisis_at_turn : ℕ
  deriving DecidableEq, Repr

/-- `RelationalMonteCarlo._make_failed_timeline`: the placeholder result for
a failed simulation.  `uuid` is the `uuid4()` draw consumed by the
`timeline_id` default factory. -/
def makeFailedTimeline (uuid pairId : String) (seed : ℤ) : TimelineResult :=
  { timeline_id := uuid, seed := seed, pair_id := pairId,
    crisis_severity := 0, crisis_axis := "unknown",
    reached_homeostasis := false, narrative_elasticity := 0,
    final_resilience_score := 0, antifragile := false, turns_total := 0,
    belief_collapse_events := 0, linguistic_convergence_final := 0,
    full_transcript := [], belief_state_snapshots := [] }

/-- The per-batch result merge in `RelationalMonteCarlo.run_ensemble`: each
task outcome of `asyncio.gather(..., return_exceptions=True)` is either a
`TimelineResult` or a captured exception, and an exception is replaced by
`_make_failed_timeline(pair_id, batch[0]["seed"])`.  The `Option` in the
output models the `IndexError` that `batch[0]` would raise on an empty batch
(batches are nonempty slices in `run_ensemble`, so this never fires). -/
def mergeBatchResults (uuid pairId : String) (batch : List ParamSet)
    (batchResults : List (Except String TimelineResult)) :
    List (Option TimelineResult) :=
  batchResults.map fun r =>
    match r with
    | .ok t => some t
    | .error _ => batch.head?.map fun p => makeFailedTimeline uuid pairId p.seed

/-- C10.  Whenever a timeline task of a batch completes with an exception,
the placeholder appended by `run_ensemble` carries the seed of the first
parameter set of the batch (`batch[0]`) — not necessarily the seed of the
parameter set whose timeline failed — and always has `crisis_severity 0.0`
and `reached_homeostasis false`. -/
theorem mergeBatchResults_failed_uses_first_seed
    (uuid pairId : String) (batch : List ParamSet) (p0 : ParamSet)
    (rs : List (Except String TimelineResult)) (i : ℕ) (e : String)
    (h0 : batch.head? = some p0) (hi : rs[i]? = some (.error e)) :
    (mergeBatchResults uuid pairId batch rs)[i]? =
        some (some (makeFailedTimeline uuid pairId p0.seed)) ∧
      (makeFailedTimeline uuid pairId p0.seed).crisis_severity = 0 ∧
      (makeFailedTimeline uuid pairId p0.seed).reached_homeostasis = false := by
  refine ⟨?_, rfl, rfl⟩
  unfold mergeBatchResults
  rw [List.getElem?_map, hi]
  simp [h0]

/-- C10 (witness): a two-element batch whose second timeline fails yields a
placeholder carrying the first parameter set's seed `1`, not the failing
timeline's seed `2`. -/
theorem mergeBatchResults_failed_uses_first_seed_witness :
    ((mergeBatchResults "u" "p"
          [⟨1, 1/2, 3⟩, ⟨2, 1/4, 4⟩]
          [.ok (mkTL (1/2) true), .error "boom"])[1]? =
        some (some (makeFailedTimeline "u" "p" 1)) ∧
      (makeFailedTimeline "u" "p" (1 : ℤ)).crisis_severity = 0 ∧
      (makeFailedTimeline "u" "p" (1 : ℤ)).reached_homeostasis = false) ∧
      (1 : ℤ) ≠ 2 :=
  ⟨mergeBatchResults_failed_uses_first_seed "u" "p"
      [⟨1, 1/2, 3⟩, ⟨2, 1/4, 4⟩] ⟨1, 1/2, 3⟩
      [.ok (mkTL (1/2) true), .error "boom"] 1 "boom" rfl rfl,
    by decide⟩

-- ---------------------------------------------------------------------------
-- Dialogue router (apriori/agents/dialogue_graph.py, should_continue)
-- ---------------------------------------------------------------------------

/-- The slice of `DialogueState` read by the router. -/
structure RouterState where
  simulation_complete : Bool
  turn_number : ℕ
  crisis_injected_at_turn : Option ℕ
  deriving DecidableEq, Repr

/-- The conditional edge `should_continue` of the dialogue graph, evaluated
after each full exchange. -/
def shouldContinue (maxTurns crisisTurn : ℕ) (s : RouterState) : String :=
  if s.simulation_complete then "end"
  else if maxTurns ≤ s.turn_number then "end"
  else if s.turn_number = crisisTurn ∧ s.crisis_injected_at_turn = none then
    "inject_crisis"
  else if 0 < s.turn_number ∧ s.turn_number % 3 = 0 then "check_collapse"
  else "continue"

/-- First-match evaluation of a prioritised rule list, with a default
outcome. -/
def firstMatch : List (Bool × String) → String → String
  | [], d => d
  | (c, r) :: rest, d => if c then r else firstMatch rest d

/-- The routing rules in the priority order stated by the specification:
end on completion; end at `maxTurns`; inject the crisis at `crisisTurn` when
none was injected yet; check collapse every third turn; otherwise
continue. -/
def routerRules (maxTurns crisisTurn : ℕ) (s : RouterState) :
    List (Bool × String) :=
  [ (s.simulation_complete, "end"),
    (decide (maxTurns ≤ s.turn_number), "end"),
    (decide (s.turn_number = crisisTurn) &&
      decide (s.crisis_injected_at_turn = none), "inject_crisis"),
    (decide (0 < s.turn_number) && decide (s.turn_number % 3 = 0),
      "check_collapse") ]

/-- C9.  For every dialogue state, `should_continue` returns the first
matching outcome of the specification's priority list, with `"continue"` as
the default. -/
theorem shouldContinue_eq_firstMatch (maxTurns crisisTurn : ℕ)
    (s : RouterState) :
    shouldContinue maxTurns crisisTurn s =
      firstMatch (routerRules maxTurns crisisTurn s) "continue" := by
  rcases s with ⟨sc, tn, ci⟩
  simp only [shouldContinue, routerRules, firstMatch]
  rcases sc with _ | _ <;>
    by_cases h2 : maxTurns ≤ tn <;>
      by_cases h3 : tn = crisisTurn ∧ ci = none <;>
        by_cases h4 : 0 < tn ∧ tn % 3 = 0 <;>
          simp_all

-- ---------------------------------------------------------------------------
-- IdentifyVulnerability scenarios (C7)
-- ---------------------------------------------------------------------------

/-- Folding the argmax step from an accumulator that already holds the
unique maximiser keeps it: every later key scores strictly lower, so the
strict-improvement test never fires. -/
theorem argmax_foldl_keep (score : ValueKey → ℚ) (t : ValueKey) :
    ∀ l : List ValueKey, (∀ k ∈ l, k ≠ t → score k < score t) →
      l.foldl (argmaxStep score) (some t) = some t := by
  intro l
  induction l with
  | nil => intro _; rfl
  | cons k rest ih =>
    intro hmax
    have hstep : argmaxStep score (some t) k = some t := by
      by_cases hk : k = t
      · simp [argmaxStep, hk]
      · have := hmax k (List.mem_cons_self k rest) hk
        simp [argmaxStep, not_lt.mpr this.le]
    rw [List.foldl_cons, hstep]
    exact ih fun k' hk' => hmax k' (List.mem_cons_of_mem _ hk')

/-- Folding the argmax step from a strictly dominated accumulator reaches
the unique maximiser contained in the remaining keys. -/
theorem argmax_foldl_reach (score : ValueKey → ℚ) (t : ValueKey) :
    ∀ l : List ValueKey, ∀ b : ValueKey, score b < score t → t ∈ l →
      (∀ k ∈ l, k ≠ t → score k < score t) →
      l.foldl (argmaxStep score) (some b) = some t := by
  intro l
  induction l with
  | nil => intro b _ ht _; exact absurd ht (List.not_mem_nil t)
  | cons k rest ih =>
    intro b hb ht hmax
    by_cases hk : k = t
    · subst hk
      have hstep : argmaxStep score (some b) k = some k := by
        simp [argmaxStep, hb]
      rw [List.foldl_cons, hstep]
      exact argmax_foldl_keep score k rest
        fun k' hk' => hmax k' (List.mem_cons_of_mem _ hk')
    · have hkt : score k < score t := hmax k (List.mem_cons_self k rest) hk
      have ht' : t ∈ rest := by
        rcases List.mem_cons.mp ht with h | h
        · exact absurd h.symm hk
        · exact h
      rw [List.foldl_cons]
      by_cases hbk : score b < score k
      · have hstep : argmaxStep score (some b) k = some k := by
          simp [argmaxStep, hbk]
        rw [hstep]
        exact ih k hkt ht' fun k' hk' => hmax k' (List.mem_cons_of_mem _ hk')
      · have hstep : argmaxStep score (some b) k = some b := by
          simp [argmaxStep, hbk]
        rw [hstep]
        exact ih b hb ht' fun k' hk' => hmax k' (List.mem_cons_of_mem _ hk')

/-- Python's `max` over the joint-stakes dict returns the unique maximiser
regardless of the (hash-dependent) key iteration order. -/
theorem argmaxKey_of_unique (score : ValueKey → ℚ) (t : ValueKey)
    (l : List ValueKey) (ht : t ∈ l)
    (hmax : ∀ k ∈ l, k ≠ t → score k < score t) :
    argmaxKey score l = some t := by
  cases l with
  | nil => exact absurd ht (List.not_mem_nil t)
  | cons k rest =>
    unfold argmaxKey
    rw [List.foldl_cons]
    have hstep : argmaxStep score none k = some k := rfl
    rw [hstep]
    by_cases hk : k = t
    · subst hk
      exact argmax_foldl_keep score k rest
        fun k' hk' => hmax k' (List.mem_cons_of_mem _ hk')
    · have hkt : score k < score t := hmax k (List.mem_cons_self k rest) hk
      have ht' : t ∈ rest := by
        rcases List.mem_cons.mp ht with h | h
        · exact absurd h.symm hk
        · exact h
      exact argmax_foldl_reach score t rest k hkt ht'
        fun k' hk' => hmax k' (List.mem_cons_of_mem _ hk')

/-- Scenario S1's profiles: all eight values `0.5`, secure attachment and
the single fear `"abandonment"` on both sides. -/
def s1Profile (aid : String) : ShadowVector :=
  { agent_id := aid, values := fun _ => 1/2, attachment_style := .secure,
    fear_architecture := ["abandonment"], linguistic_signature := [],
    entropy_tolerance := 1/2, communication_style := "direct" }

/-- Scenario S2's anxious profile: all values `0.5`, no fear shared with the
avoidant partner. -/
def s2Anxious : ShadowVector :=
  { agent_id := "a", values := fun _ => 1/2, attachment_style := .anxious,
    fear_architecture := ["abandonment"], linguistic_signature := [],
    entropy_tolerance := 1/2, communication_style := "direct" }

/-- Scenario S2's avoidant profile: all values `0.5`, no fear shared with
the anxious partner. -/
def s2Avoidant : ShadowVector :=
  { agent_id := "b", values := fun _ => 1/2, attachment_style := .avoidant,
    fear_architecture := ["engulfment"], linguistic_signature := [],
    entropy_tolerance := 1/2, communication_style := "direct" }

/-- C7.  `identify_shared_vulnerability` satisfies the two literal
scenarios, for every enumeration order of the eight value keys: (S1) two
all-0.5 secure profiles sharing the fear `"abandonment"` yield axis
`belonging` with score `0.5·0.5·1.4 = 0.35`; (S2) an anxious and an avoidant
all-0.5 profile with no shared fears yield axis `intimacy` with score
`0.25·1.6 = 0.40`. -/
theorem identifySharedVulnerability_scenarios (keyOrder : List ValueKey)
    (hperm : keyOrder.Perm sortedValueKeys) :
    identifySharedVulnerability keyOrder (s1Profile "a") (s1Profile "b") =
        some (.belonging, 35/100) ∧
      identifySharedVulnerability keyOrder s2Anxious s2Avoidant =
        some (.intimacy, 40/100) := by
  have hmem : ∀ k : ValueKey, k ∈ keyOrder := by
    intro k
    exact hperm.mem_iff.mpr (by cases k <;> with_unfolding_all decide)
  constructor
  · have hmax : ∀ k : ValueKey, k ≠ ValueKey.belonging →
        jointStakes (s1Profile "a") (s1Profile "b") k <
          jointStakes (s1Profile "a") (s1Profile "b") ValueKey.belonging := by
      with_unfolding_all decide
    unfold identifySharedVulnerability
    rw [argmaxKey_of_unique _ ValueKey.belonging keyOrder
      (hmem _) (fun k _ => hmax k)]
    have hv : jointStakes (s1Profile "a") (s1Profile "b")
        ValueKey.belonging = 35/100 := by
      with_unfolding_all decide
    rw [Option.map_some', hv]
  · have hmax : ∀ k : ValueKey, k ≠ ValueKey.intimacy →
        jointStakes s2Anxious s2Avoidant k <
          jointStakes s2Anxious s2Avoidant ValueKey.intimacy := by
      with_unfolding_all decide
    unfold identifySharedVulnerability
    rw [argmaxKey_of_unique _ ValueKey.intimacy keyOrder
      (hmem _) (fun k _ => hmax k)]
    have hv : jointStakes s2Anxious s2Avoidant ValueKey.intimacy = 40/100 := by
      with_unfolding_all decide
    rw [Option.map_some', hv]

/-- C7 (witness): the scenario theorem instantiated at the alphabetical key
order. -/
theorem identifySharedVulnerability_scenarios_witness :
    identifySharedVulnerability sortedValueKeys (s1Profile "a")
        (s1Profile "b") = some (.belonging, 35/100) ∧
      identifySharedVulnerability sortedValueKeys s2Anxious s2Avoidant =
        some (.intimacy, 40/100) :=
  identifySharedVulnerability_scenarios sortedValueKeys (List.Perm.refl _)


-- ---------------------------------------------------------------------------
-- ToMTracker divergence (apriori/core/tom_tracker.py, C8)
-- ---------------------------------------------------------------------------

/-- The ε used by `ToMTracker._to_distribution` to avoid zeros before
normalization. -/
noncomputable def epsSmoothing : ℝ := 1 / 10 ^ 10

/-- `ToMTracker._to_distribution`: smooth each value with ε, then normalize
so the vector over the alphabetically sorted keys sums to 1.  Missing keys
read as `0.0` (`values.get(k, 0.0)`); the total-function model makes that the
value at the key. -/
noncomputable def toDistribution (v : ValueKey → ℝ) : List ℝ :=
  (sortedValueKeys.map fun k => max (v k) epsSmoothing).map
    fun x => x / (sortedValueKeys.map fun k => max (v k) epsSmoothing).sum

/-- `ToMTracker._raw_kl`: `Σ pᵢ·log(pᵢ/qᵢ)` over index pairs where both
entries are positive. -/
noncomputable def rawKL (p q : List ℝ) : ℝ :=
  ((p.zip q).map fun x =>
    if 0 < x.1 ∧ 0 < x.2 then x.1 * Real.log (x.1 / x.2) else 0).sum

/-- Python's `round(x, d)` on a float, modelled over ℝ as round-half-up
(the half-to-even difference at exact midpoints does not affect any bound
proved below). -/
noncomputable def pyRoundR (d : ℕ) (x : ℝ) : ℝ :=
  (⌊x * (10 : ℝ) ^ d + 1 / 2⌋ : ℤ) / (10 : ℝ) ^ d

/-- The un-rounded Jensen–Shannon divergence of `ToMTracker._kl_divergence`:
`0.5·KL(p‖m) + 0.5·KL(q‖m)` with `m` the pointwise mean of the two smoothed,
normalized distributions. -/
noncomputable def jsdRaw (p q : ValueKey → ℝ) : ℝ :=
  1 / 2 * rawKL (toDistribution p)
      (List.zipWith (fun a b => (a + b) / 2)
        (toDistribution p) (toDistribution q)) +
    1 / 2 * rawKL (toDistribution q)
      (List.zipWith (fun a b => (a + b) / 2)
        (toDistribution p) (toDistribution q))

/-- `ToMTracker._kl_divergence`: the Jensen–Shannon divergence rounded to
six decimals. -/
noncomputable def klDivergence (p q : ValueKey → ℝ) : ℝ :=
  pyRoundR 6 (jsdRaw p q)

theorem rawKL_nil (q : List ℝ) : rawKL [] q = 0 := by
  simp [rawKL]

theorem rawKL_cons (a b : ℝ) (p q : List ℝ) :
    rawKL (a :: p) (b :: q) =
      (if 0 < a ∧ 0 < b then a * Real.log (a / b) else 0) + rawKL p q := by
  simp [rawKL, List.zip_cons_cons]

/-- Gibbs-style pointwise lower bound: `a − b ≤ a·log(a/b)` for positive
`a`, `b` (from `log x ≤ x − 1`). -/
theorem klTerm_lower (a b : ℝ) (ha : 0 < a) (hb : 0 < b) :
    a - b ≤ a * Real.log (a / b) := by
  have h := Real.log_le_sub_one_of_pos (div_pos hb ha)
  have hlog : Real.log (b / a) = -Real.log (a / b) := by
    rw [← Real.log_inv, inv_div]
  rw [hlog] at h
  have h1 : 1 - b / a ≤ Real.log (a / b) := by linarith
  have h2 : a * (1 - b / a) ≤ a * Real.log (a / b) :=
    mul_le_mul_of_nonneg_left h1 ha.le
  have h3 : a * (1 - b / a) = a - b := by
    field_simp
  linarith

/-- Pointwise upper bound: `a·log(a/b) ≤ a·log 2` whenever `a ≤ 2b`. -/
theorem klTerm_upper (a b : ℝ) (ha : 0 < a) (hb : 0 < b) (hab : a ≤ 2 * b) :
    a * Real.log (a / b) ≤ a * Real.log 2 := by
  have hq : a / b ≤ 2 := (div_le_iff₀ hb).mpr (by linarith)
  have := Real.log_le_log (div_pos ha hb) hq
  exact mul_le_mul_of_nonneg_left this ha.le

/-- `raw_kl` is bounded below by the difference of the totals. -/
theorem rawKL_ge_sub_sums (p q : List ℝ)
    (h : List.Forall₂ (fun a b => 0 < a ∧ 0 < b) p q) :
    p.sum - q.sum ≤ rawKL p q := by
  induction h with
  | nil => simp [rawKL_nil]
  | @cons a b p' q' hab _ ih =>
    rw [rawKL_cons, if_pos hab, List.sum_cons, List.sum_cons]
    have := klTerm_lower a b hab.1 hab.2
    linarith

/-- `raw_kl` against a coordinatewise near-double is bounded by
`(Σp)·log 2`. -/
theorem rawKL_le_sum_mul_log_two (p q : List ℝ)
    (h : List.Forall₂ (fun a b => 0 < a ∧ 0 < b ∧ a ≤ 2 * b) p q) :
    rawKL p q ≤ p.sum * Real.log 2 := by
  induction h with
  | nil => simp [rawKL_nil]
  | @cons a b p' q' hab _ ih =>
    rw [rawKL_cons, if_pos ⟨hab.1, hab.2.1⟩, List.sum_cons, add_mul]
    have := klTerm_upper a b hab.1 hab.2.1 hab.2.2
    linarith

theorem rawKL_self (p : List ℝ) : rawKL p p = 0 := by
  induction p with
  | nil => simp [rawKL_nil]
  | cons a p' ih =>
    rw [rawKL_cons, ih, add_zero]
    by_cases ha : 0 < a ∧ 0 < a
    · rw [if_pos ha, div_self (ne_of_gt ha.1), Real.log_one, mul_zero]
    · rw [if_neg ha]

theorem sum_map_div (l : List ℝ) (c : ℝ) :
    (l.map fun x => x / c).sum = l.sum / c := by
  induction l with
  | nil => simp
  | cons a t ih => simp [List.sum_cons, ih, add_div]

theorem smoothed_sum_pos (v : ValueKey → ℝ) :
    0 < (sortedValueKeys.map fun k => max (v k) epsSmoothing).sum := by
  apply List.sum_pos
  · intro y hy
    obtain ⟨k', _, rfl⟩ := List.mem_map.mp hy
    have heps : (0 : ℝ) < epsSmoothing := by
      unfold epsSmoothing; positivity
    exact lt_of_lt_of_le heps (le_max_right _ _)
  · simp [sortedValueKeys]

theorem toDistribution_length (v : ValueKey → ℝ) :
    (toDistribution v).length = 8 := by
  simp [toDistribution, sortedValueKeys]

theorem toDistribution_pos (v : ValueKey → ℝ) :
    ∀ x ∈ toDistribution v, 0 < x := by
  intro x hx
  unfold toDistribution at hx
  obtain ⟨r, hr, rfl⟩ := List.mem_map.mp hx
  obtain ⟨k, _, rfl⟩ := List.mem_map.mp hr
  have heps : (0 : ℝ) < epsSmoothing := by
    unfold epsSmoothing; positivity
  exact div_pos (lt_of_lt_of_le heps (le_max_right _ _)) (smoothed_sum_pos v)

theorem toDistribution_sum (v : ValueKey → ℝ) :
    (toDistribution v).sum = 1 := by
  unfold toDistribution
  rw [sum_map_div, div_self (ne_of_gt (smoothed_sum_pos v))]

/-- The pointwise-mean list pairs with `p` through the relation needed for
both Kullback–Leibler bounds. -/
theorem forall₂_avg : ∀ p q : List ℝ, p.length = q.length →
    (∀ x ∈ p, 0 < x) → (∀ x ∈ q, 0 < x) →
    List.Forall₂ (fun a b => 0 < a ∧ 0 < b ∧ a ≤ 2 * b) p
      (List.zipWith (fun a b => (a + b) / 2) p q) := by
  intro p
  induction p with
  | nil =>
    intro q hlen _ _
    cases q with
    | nil => simp
    | cons b q' => simp at hlen
  | cons a p' ih =>
    intro q hlen hp hq
    cases q with
    | nil => simp at hlen
    | cons b q' =>
      rw [List.zipWith_cons_cons]
      have ha : 0 < a := hp a (List.mem_cons_self _ _)
      have hb : 0 < b := hq b (List.mem_cons_self _ _)
      refine List.Forall₂.cons ⟨ha, by linarith, by linarith⟩ ?_
      exact ih q' (by simpa using hlen)
        (fun x hx => hp x (List.mem_cons_of_mem _ hx))
        (fun x hx => hq x (List.mem_cons_of_mem _ hx))

theorem zipWith_avg_sum : ∀ p q : List ℝ, p.length = q.length →
    (List.zipWith (fun a b => (a + b) / 2) p q).sum = (p.sum + q.sum) / 2 := by
  intro p
  induction p with
  | nil =>
    intro q hlen
    cases q with
    | nil => simp
    | cons b q' => simp at hlen
  | cons a p' ih =>
    intro q hlen
    cases q with
    | nil => simp at hlen
    | cons b q' =>
      rw [List.zipWith_cons_cons, List.sum_cons, List.sum_cons, List.sum_cons,
        ih q' (by simpa using hlen)]
      ring

theorem toDistribution_length_eq (p q : ValueKey → ℝ) :
    (toDistribution p).length = (toDistribution q).length := by
  rw [toDistribution_length, toDistribution_length]

theorem jsdRaw_symm (p q : ValueKey → ℝ) : jsdRaw p q = jsdRaw q p := by
  unfold jsdRaw
  rw [List.zipWith_comm_of_comm (fun a b => (a + b) / 2)
    (fun a b => by ring) (toDistribution p) (toDistribution q)]
  ring

theorem jsdRaw_self (p : ValueKey → ℝ) : jsdRaw p p = 0 := by
  unfold jsdRaw
  have hm : List.zipWith (fun a b => (a + b) / 2) (toDistribution p)
      (toDistribution p) = toDistribution p := by
    rw [List.zipWith_same]
    have h : ∀ a ∈ toDistribution p, (a + a) / 2 = id a := by
      intro a _
      simp only [id]
      ring
    rw [List.map_congr_left h, List.map_id]
  rw [hm, rawKL_self]
  ring

theorem jsdRaw_nonneg (p q : ValueKey → ℝ) : 0 ≤ jsdRaw p q := by
  unfold jsdRaw
  have hm := forall₂_avg (toDistribution p) (toDistribution q)
    (toDistribution_length_eq p q) (toDistribution_pos p) (toDistribution_pos q)
  have hm' := forall₂_avg (toDistribution q) (toDistribution p)
    (toDistribution_length_eq q p) (toDistribution_pos q) (toDistribution_pos p)
  have hswap : List.zipWith (fun a b => (a + b) / 2) (toDistribution q)
      (toDistribution p) =
        List.zipWith (fun a b => (a + b) / 2) (toDistribution p)
          (toDistribution q) :=
    List.zipWith_comm_of_comm (fun a b => (a + b) / 2)
      (fun a b => by ring) (toDistribution q) (toDistribution p)
  have hsum : (List.zipWith (fun a b => (a + b) / 2) (toDistribution p)
      (toDistribution q)).sum = 1 := by
    rw [zipWith_avg_sum _ _ (toDistribution_length_eq p q),
      toDistribution_sum, toDistribution_sum]
    norm_num
  have hmw : List.Forall₂ (fun a b => 0 < a ∧ 0 < b) (toDistribution p)
      (List.zipWith (fun a b => (a + b) / 2) (toDistribution p)
        (toDistribution q)) :=
    hm.imp fun a b h => ⟨h.1, h.2.1⟩
  have hm'' : List.Forall₂ (fun a b => 0 < a ∧ 0 < b ∧ a ≤ 2 * b)
      (toDistribution q)
      (List.zipWith (fun a b => (a + b) / 2) (toDistribution p)
        (toDistribution q)) := by
    rw [← hswap]
    exact hm'
  have hmw' : List.Forall₂ (fun a b => 0 < a ∧ 0 < b) (toDistribution q)
      (List.zipWith (fun a b => (a + b) / 2) (toDistribution p)
        (toDistribution q)) :=
    hm''.imp fun a b h => ⟨h.1, h.2.1⟩
  have h1 := rawKL_ge_sub_sums _ _ hmw
  have h2 := rawKL_ge_sub_sums _ _ hmw'
  rw [toDistribution_sum, hsum] at h1 h2
  linarith

theorem jsdRaw_le_log_two (p q : ValueKey → ℝ) : jsdRaw p q ≤ Real.log 2 := by
  unfold jsdRaw
  have hm := forall₂_avg (toDistribution p) (toDistribution q)
    (toDistribution_length_eq p q) (toDistribution_pos p) (toDistribution_pos q)
  have hm' := forall₂_avg (toDistribution q) (toDistribution p)
    (toDistribution_length_eq q p) (toDistribution_pos q) (toDistribution_pos p)
  have hswap : List.zipWith (fun a b => (a + b) / 2) (toDistribution q)
      (toDistribution p) =
        List.zipWith (fun a b => (a + b) / 2) (toDistribution p)
          (toDistribution q) :=
    List.zipWith_comm_of_comm (fun a b => (a + b) / 2)
      (fun a b => by ring) (toDistribution q) (toDistribution p)
  have h1 := rawKL_le_sum_mul_log_two _ _ hm
  have h2 := rawKL_le_sum_mul_log_two _ _ (hswap ▸ hm')
  rw [toDistribution_sum, one_mul] at h1 h2
  linarith

theorem pyRoundR_nonneg (x : ℝ) (hx : 0 ≤ x) : 0 ≤ pyRoundR 6 x := by
  unfold pyRoundR
  apply div_nonneg _ (by positivity)
  have h : (0 : ℤ) ≤ ⌊x * (10 : ℝ) ^ 6 + 1 / 2⌋ :=
    Int.floor_nonneg.mpr (by positivity)
  exact_mod_cast h

theorem pyRoundR_le_log_two (x : ℝ) (hx : x ≤ Real.log 2) :
    pyRoundR 6 x ≤ Real.log 2 := by
  unfold pyRoundR
  have hlt : Real.log 2 < 0.6931471808 := Real.log_two_lt_d9
  have hgt : (0.6931471803 : ℝ) < Real.log 2 := Real.log_two_gt_d9
  have hup : x * (10 : ℝ) ^ 6 + 1 / 2 < ((693148 : ℤ) : ℝ) := by
    push_cast
    nlinarith
  have hfl : ⌊x * (10 : ℝ) ^ 6 + 1 / 2⌋ ≤ 693147 := by
    have h' := Int.floor_lt.mpr hup
    omega
  calc ((⌊x * (10 : ℝ) ^ 6 + 1 / 2⌋ : ℤ) : ℝ) / (10 : ℝ) ^ 6
      ≤ (693147 : ℝ) / (10 : ℝ) ^ 6 := by
        apply div_le_div_of_nonneg_right ?_ (by positivity)
        exact_mod_cast hfl
    _ ≤ Real.log 2 := by nlinarith

/-- C8.  The tracker's Jensen–Shannon divergence is exactly symmetric (hence
within the claimed `1e-6`), vanishes on identical value maps, and lies in
`[0, ln 2]` — for all value maps, with no positivity assumption, thanks to
the ε-smoothing. -/
theorem klDivergence_jsd_properties (p q : ValueKey → ℝ) :
    klDivergence p q = klDivergence q p ∧
      klDivergence p p = 0 ∧
      0 ≤ klDivergence p q ∧ klDivergence p q ≤ Real.log 2 := by
  refine ⟨?_, ?_, ?_, ?_⟩
  · unfold klDivergence
    rw [jsdRaw_symm]
  · unfold klDivergence
    rw [jsdRaw_self]
    unfold pyRoundR
    norm_num
  · exact pyRoundR_nonneg _ (jsdRaw_nonneg p q)
  · exact pyRoundR_le_log_two _ (jsdRaw_le_log_two p q)

-- ---------------------------------------------------------------------------
-- LLM JSON handling (apriori/core/tom_tracker.py, C1)
-- ---------------------------------------------------------------------------

/-- Python's `str.strip()` on a character list. -/
def pyStripList (l : List Char) : List Char :=
  ((l.dropWhile Char.isWhitespace).reverse.dropWhile Char.isWhitespace).reverse

/-- Python's `str.strip()`. -/
def pyStrip (s : String) : String :=
  String.mk (pyStripList s.toList)

/-- Python's `str.split("\n")`: split on every newline, keeping empty
segments. -/
def splitNl : List Char → List (List Char)
  | [] => [[]]
  | '\n' :: rest => [] :: splitNl rest
  | c :: rest =>
    match splitNl rest with
    | [] => [[c]]
    | line :: more => (c :: line) :: more

/-- The fence-stripping preamble of `ToMTracker._llm_json_call` (identical in
`BeliefCollapseDetector._llm_json_call` and
`StochasticEventGenerator._generate_narrative`): strip the content; if it
starts with three backticks, drop every line whose stripped form starts with
three backticks, re-join with newlines and strip again. -/
def stripFences (content : String) : String :=
  let c := pyStripList content.toList
  if "```".toList.isPrefixOf c then
    let kept := (splitNl c).filter
      fun line => !("```".toList.isPrefixOf (pyStripList line))
    String.mk (pyStripList (List.intercalate ['\n'] kept))
  else String.mk c

/-- A JSON value as produced by the structured-output prompts: a plain
decimal number or an escape-free string. -/
inductive JsonVal where
  | num (q : ℚ)
  | str (s : String)
  deriving DecidableEq, Repr

/-- Skip JSON whitespace. -/
def skipWs (l : List Char) : List Char :=
  l.dropWhile Char.isWhitespace

/-- Parse a JSON string literal without escapes. -/
def parseStringLit : List Char → Option (String × List Char)
  | '"' :: rest =>
    let content := rest.takeWhile fun c => c ≠ '"' ∧ c ≠ '\\'
    match rest.drop content.length with
    | '"' :: tail => some (String.mk content, tail)
    | _ => none
  | _ => none

/-- Digit run to a natural number. -/
def digitsToNat (l : List Char) : ℕ :=
  l.foldl (fun n c => 10 * n + (c.toNat - 48)) 0

/-- Parse a plain decimal JSON number (optional sign, integer part, optional
fraction). -/
def parseNumber (l : List Char) : Option (ℚ × List Char) :=
  let signed := match l with
    | '-' :: rest => (true, rest)
    | _ => (false, l)
  let intDigits := signed.2.takeWhile Char.isDigit
  if intDigits.isEmpty then none
  else
    let l2 := signed.2.drop intDigits.length
    let intVal : ℚ := (digitsToNat intDigits : ℚ)
    match l2 with
    | '.' :: l3 =>
      let fracDigits := l3.takeWhile Char.isDigit
      if fracDigits.isEmpty then none
      else
        let v := intVal +
          (digitsToNat fracDigits : ℚ) / (10 : ℚ) ^ fracDigits.length
        some (if signed.1 then -v else v, l3.drop fracDigits.length)
    | _ => some (if signed.1 then -intVal else intVal, l2)

/-- Parse one JSON value (string or number). -/
def parseValue (l : List Char) : Option (JsonVal × List Char) :=
  match l with
  | '"' :: _ =>
    (parseStringLit l).map fun sv => (JsonVal.str sv.1, sv.2)
  | _ => (parseNumber l).map fun nv => (JsonVal.num nv.1, nv.2)

/-- Parse the comma-separated members of a JSON object, up to and including
the closing brace; the fuel bounds recursion by the input length. -/
def parseMembers : ℕ → List Char → Option (List (String × JsonVal) × List Char)
  | 0, _ => none
  | fuel + 1, l =>
    match parseStringLit (skipWs l) with
    | none => none
    | some (key, rest) =>
      match skipWs rest with
      | ':' :: rest2 =>
        match parseValue (skipWs rest2) with
        | none => none
        | some (v, rest3) =>
          match skipWs rest3 with
          | ',' :: rest4 =>
            match parseMembers fuel rest4 with
            | some (ps, tail) => some ((key, v) :: ps, tail)
            | none => none
          | '\x7d' :: tail => some ([(key, v)], tail)
          | _ => none
      | _ => none

/-- Modelled from Python's `json.loads`, restricted to the flat objects of
string keys and plain string/number values that the structured prompts
request; `none` models a raised `json.JSONDecodeError`.  (Richer JSON that
the real `json.loads` would accept is outside the shapes exercised here;
every concrete input below is valid or invalid for both.) -/
def parseJson (s : String) : Option (List (String × JsonVal)) :=
  match skipWs s.toList with
  | '\x7b' :: rest =>
    match skipWs rest with
    | '\x7d' :: tail => if (skipWs tail).isEmpty then some [] else none
    | body =>
      match parseMembers (body.length + 1) body with
      | some (pairs, tail) => if (skipWs tail).isEmpty then some pairs else none
      | none => none
  | _ => none

/-- `ToMTracker._llm_json_call`: invoke the model, strip markdown fences,
then `json.loads(content)` — which raises (here: `Except.error`) on
unparseable content; there is no `try`/`except` in the tracker, unlike the
collapse detector's `_llm_json_call`. -/
def llmJsonCall (response : String) : Except String (List (String × JsonVal)) :=
  match parseJson (stripFences response) with
  | some obj => .ok obj
  | none => .error "JSONDecodeError"

/-- Python `float(raw.get(key, default))` for the numeric dictionaries.
(A non-numeric value would raise in Python; the dict shapes exercised below
are numeric, and the default covers missing keys.) -/
def jsonGetNum (obj : List (String × JsonVal)) (key : String) (d : ℚ) : ℚ :=
  match obj.find? fun kv => kv.1 = key with
  | some (_, .num q) => q
  | _ => d

/-- Python `raw.get(key, default)` rendered as text (strategy/rationale
fields). -/
def jsonGetStr (obj : List (String × JsonVal)) (key : String) (d : String) :
    String :=
  match obj.find? fun kv => kv.1 = key with
  | some (_, .str s) => s
  | some (_, .num q) => toString q
  | none => d

-- ---------------------------------------------------------------------------
-- ToMTracker update pipeline (apriori/core/tom_tracker.py, C1)
-- ---------------------------------------------------------------------------

/-- `ToMTracker._infer_values_from_utterance`: parse the model's JSON (the
parse error propagates), read each dimension with default `0.0`, clamp to
`[-0.3, 0.3]`. -/
def inferValuesFromUtterance (response : String) :
    Except String (ValueKey → ℚ) :=
  (llmJsonCall response).map fun raw k =>
    max (-(3/10)) (min (3/10) (jsonGetNum raw (keyName k) 0))

/-- `ToMTracker._bayesian_update`:
`posterior = clamp01(prior + confidence * likelihood)`. -/
def bayesianUpdate (prior likelihood : ValueKey → ℚ) (confidence : ℚ) :
    ValueKey → ℚ :=
  fun k => max 0 (min 1 (prior k + confidence * likelihood k))

/-- `ToMTracker._project_their_model_of_me`: parse the model's JSON (the
parse error propagates), read each dimension with default `0.5`, clamp to
`[0, 1]`. -/
def projectTheirModelOfMe (response : String) :
    Except String (ValueKey → ℚ) :=
  (llmJsonCall response).map fun raw k =>
    max 0 (min 1 (jsonGetNum raw (keyName k) (1/2)))

/-- `ToMTracker._classify_risk`. -/
def classifyRisk (collapse_threshold divergence : ℚ) : String :=
  if 8/10 < divergence then "CRITICAL"
  else if collapse_threshold < divergence then "HIGH"
  else if 4/10 < divergence then "MODERATE"
  else "LOW"

/-- `ToMTracker._recommend_strategy`: the gap computation feeds only the
prompt (abstracted into the environment's reply); the reply is parsed (the
parse error propagates) and rendered as `"<strategy>: <rationale>"`. -/
def recommendStrategy (response : String) : Except String String :=
  (llmJsonCall response).map fun raw =>
    jsonGetStr raw "strategy" "probe" ++ ": " ++ jsonGetStr raw "rationale" ""

/-- `EpistemicModel` (apriori/models/shadow_vector.py), rationals for
floats. -/
structure EpistemicModelL where
  owner_agent_id : String
  target_agent_id : String
  l1_belief : ShadowVector
  l2_belief : ShadowVector
  l3_belief : Option ShadowVector
  belief_confidence : ℚ
  epistemic_divergence : ℚ
  update_count : ℕ

/-- One hidden-thought record (the dict built at the end of
`ToMTracker.hidden_thought`). -/
structure ThoughtRecord where
  agent : String
  turn : ℕ
  other_id : String
  l1_update : ValueKey → ℚ
  l2_projection : ValueKey → ℚ
  epistemic_divergence : ℚ
  collapse_risk : String
  raw_thought : String
  recommended_strategy : String

/-- Tracker state (`ToMTracker` fields plus its `BeliefState`).  The record
is appended to both `self._thought_log` and
`belief_state.hidden_thought_log` in the source; the two logs are always
equal, so one list models both. -/
structure TrackerState where
  agent_id : String
  shadow : ShadowVector
  recursion_depth : ℕ
  collapse_threshold : ℚ
  epistemic_models : List (String × EpistemicModelL)
  hidden_thought_log : List ThoughtRecord
  turn_number : ℕ

/-- A fresh tracker (`ToMTracker.__init__` past its depth check; `__init__`
raises `ValueError` on any depth other than 2 or 3). -/
def initTracker (agent_id : String) (shadow : ShadowVector)
    (recursion_depth : ℕ) (collapse_threshold : ℚ) : TrackerState :=
  { agent_id, shadow, recursion_depth, collapse_threshold,
    epistemic_models := [], hidden_thought_log := [], turn_number := 0 }

/-- `ToMTracker._get_or_init_model`: neutral priors — all values `0.5`,
secure attachment and empty fears for L1, the agent's own metadata with
neutral values for L2, confidence `0.3`. -/
def getOrInitModel (st : TrackerState) (other_id : String) : EpistemicModelL :=
  match st.epistemic_models.find? fun kv => kv.1 = other_id with
  | some kv => kv.2
  | none =>
    { owner_agent_id := st.agent_id
      target_agent_id := other_id
      l1_belief :=
        { agent_id := other_id, values := fun _ => 1/2,
          attachment_style := .secure, fear_architecture := [],
          linguistic_signature := [], entropy_tolerance := 1/2,
          communication_style := "direct" }
      l2_belief :=
        { agent_id := st.agent_id, values := fun _ => 1/2,
          attachment_style := st.shadow.attachment_style,
          fear_architecture := st.shadow.fear_architecture,
          linguistic_signature := st.shadow.linguistic_signature,
          entropy_tolerance := st.shadow.entropy_tolerance,
          communication_style := st.shadow.communication_style }
      l3_belief := none
      belief_confidence := 3/10
      epistemic_divergence := 0
      update_count := 0 }

/-- Store a model back under its target id (Python dict assignment). -/
def insertModel : List (String × EpistemicModelL) → String → EpistemicModelL →
    List (String × EpistemicModelL)
  | [], k, m => [(k, m)]
  | (k', m') :: rest, k, m =>
    if k' = k then (k, m) :: rest else (k', m') :: insertModel rest k m

/-- ε-smoothed normalization over ℚ (`ToMTracker._to_distribution`), for the
executable machine; `toDistribution` above is the same map over ℝ. -/
def toDistributionQ (v : ValueKey → ℚ) : List ℚ :=
  (sortedValueKeys.map fun k => max (v k) (1 / 10 ^ 10)).map
    fun x => x / (sortedValueKeys.map fun k => max (v k) (1 / 10 ^ 10)).sum

/-- `ToMTracker._raw_kl` over ℚ with an abstract logarithm `rlog` standing
in for `math.log` (kept abstract so the machine stays executable; every
theorem about the machine is universally quantified over it or does not
depend on it). -/
def rawKLQ (rlog : ℚ → ℚ) (p q : List ℚ) : ℚ :=
  ((p.zip q).map fun x =>
    if 0 < x.1 ∧ 0 < x.2 then x.1 * rlog (x.1 / x.2) else 0).sum

/-- `ToMTracker._kl_divergence` over ℚ with the abstract logarithm. -/
def klDivergenceQ (rlog : ℚ → ℚ) (p q : ValueKey → ℚ) : ℚ :=
  pyRound 6 (1/2 * rawKLQ rlog (toDistributionQ p)
      (List.zipWith (fun a b => (a + b) / 2)
        (toDistributionQ p) (toDistributionQ q)) +
    1/2 * rawKLQ rlog (toDistributionQ q)
      (List.zipWith (fun a b => (a + b) / 2)
        (toDistributionQ p) (toDistributionQ q)))

/-- The model's replies to the (up to) five LLM calls of one
`hidden_thought` cycle, in call order. -/
structure LlmBundle where
  infer : String
  project : String
  l3 : String
  verbalize : String
  strategy : String
  deriving DecidableEq, Repr

/-- `ToMTracker._compute_fourth_order_loop` (depth-3 only): parse the reply
(the parse error propagates), clamp to `[0,1]`, reuse L1's structural
metadata. -/
def computeFourthOrderLoop (response : String) (model : EpistemicModelL) :
    Except String ShadowVector :=
  (llmJsonCall response).map fun raw =>
    { agent_id := model.target_agent_id
      values := fun k => max 0 (min 1 (jsonGetNum raw (keyName k) (1/2)))
      attachment_style := model.l1_belief.attachment_style
      fear_architecture := model.l1_belief.fear_architecture
      linguistic_signature := model.l1_belief.linguistic_signature
      entropy_tolerance := model.l1_belief.entropy_tolerance
      communication_style := model.l1_belief.communication_style }

/-- `ToMTracker.hidden_thought`: the full epistemic update cycle.  Any JSON
parse failure in steps 2, 4, 5 or the strategy call propagates as
`Except.error` — nothing in the tracker catches it. -/
def hiddenThought (rlog : ℚ → ℚ) (st : TrackerState) (other_id : String)
    (resp : LlmBundle) : Except String (TrackerState × ThoughtRecord) := do
  let st := { st with turn_number := st.turn_number + 1 }
  let model := getOrInitModel st other_id
  let likelihood ← inferValuesFromUtterance resp.infer
  let prior := model.l1_belief.values
  let posterior := bayesianUpdate prior likelihood model.belief_confidence
  let model := { model with
    l1_belief := { model.l1_belief with values := posterior } }
  let l1_delta := fun k => pyRound 4 (posterior k - prior k)
  let l2 ← projectTheirModelOfMe resp.project
  let model := { model with
    l2_belief := { model.l2_belief with values := l2 } }
  let model ← do
    if 3 ≤ st.recursion_depth then
      let l3v ← computeFourthOrderLoop resp.l3 model
      pure { model with l3_belief := some l3v }
    else
      pure model
  let divergence := klDivergenceQ rlog model.l1_belief.values
    model.l2_belief.values
  let model := { model with
    epistemic_divergence := divergence
    belief_confidence := min 1
      (model.belief_confidence * (98/100) + (1 - min divergence 1) * (3/100))
    update_count := model.update_count + 1 }
  let st := { st with
    epistemic_models := insertModel st.epistemic_models other_id model }
  let risk := classifyRisk st.collapse_threshold divergence
  let raw_thought := pyStrip resp.verbalize
  let strat ← recommendStrategy resp.strategy
  let record : ThoughtRecord :=
    { agent := st.agent_id, turn := st.turn_number, other_id := other_id,
      l1_update := l1_delta, l2_projection := l2,
      epistemic_divergence := pyRound 4 divergence, collapse_risk := risk,
      raw_thought := raw_thought, recommended_strategy := strat }
  let st := { st with
    hidden_thought_log := st.hidden_thought_log ++ [record] }
  pure (st, record)
/-- An arbitrary instantiation of the abstract logarithm: the statements
using it either fail before any divergence is computed or never branch on a
logarithm value. -/
def rlogZero : ℚ → ℚ := fun _ => 0

/-- A model reply that is not JSON. -/
def badJsonReply : String := "I do not think in JSON."

/-- The literal two-character reply consisting of an opening and a closing
curly brace: an empty JSON object, parseable, with every dimension key
missing. -/
def emptyObjStr : String := String.mk ['\x7b', '\x7d']

/-- The llm replies used by the concrete C1 run: the value-inference reply
is unparseable, the rest are benign. -/
def c1Bundle : LlmBundle :=
  { infer := badJsonReply, project := emptyObjStr, l3 := emptyObjStr,
    verbalize := "ok", strategy := emptyObjStr }

/-- C1 (counterexample).  A `LanguageModel` whose reply to the
value-inference prompt is not parseable JSON makes `hidden_thought` raise
(`json.loads` throws `JSONDecodeError`; neither `_llm_json_call` nor any of
its tracker callers catches it), instead of substituting a neutral delta:
the update returns an error, refuting "never raises out of the update". -/
theorem hiddenThought_raises_on_unparseable_json :
    parseJson (stripFences badJsonReply) = none ∧
      inferValuesFromUtterance badJsonReply =
        Except.error "JSONDecodeError" ∧
      hiddenThought rlogZero
          (initTracker "agent_a" (s1Profile "agent_a") 2 (65/100))
          "agent_b" c1Bundle =
        Except.error "JSONDecodeError" := by
  refine ⟨?_, ?_, ?_⟩ <;> with_unfolding_all rfl

/-- C1 (amended).  What the tracker actually guarantees: neutral defaults
are substituted only for keys missing from successfully parsed JSON (a
parsed empty object yields the all-zero delta and the all-0.5 projection,
clamped); a reply that fails to parse makes the whole `hidden_thought`
update fail with `JSONDecodeError` rather than substituting a neutral
default. -/
theorem hiddenThought_neutral_defaults_amended (s : String)
    (st : TrackerState) (other_id : String) (rlog : ℚ → ℚ)
    (resp : LlmBundle) :
    (parseJson (stripFences resp.infer) = none →
      hiddenThought rlog st other_id resp =
        Except.error "JSONDecodeError") ∧
    (parseJson (stripFences s) = some [] →
      inferValuesFromUtterance s = Except.ok (fun _ => 0) ∧
        projectTheirModelOfMe s = Except.ok (fun _ => (1 : ℚ)/2)) := by
  constructor
  · intro h
    simp only [hiddenThought, inferValuesFromUtterance, llmJsonCall, h]
    rfl
  · intro h
    have hzero : (fun k => max (-(3/10))
        (min (3/10) (jsonGetNum [] (keyName k) 0))) =
          (fun _ : ValueKey => (0 : ℚ)) := by
      funext k
      simp [jsonGetNum, min_def, max_def]
      norm_num
    have hhalf : (fun k => max 0
        (min 1 (jsonGetNum [] (keyName k) (1/2)))) =
          (fun _ : ValueKey => (1 : ℚ)/2) := by
      funext k
      simp [jsonGetNum, min_def, max_def]
      norm_num
    constructor
    · simp only [inferValuesFromUtterance, llmJsonCall, h, Except.map]
      rw [hzero]
    · simp only [projectTheirModelOfMe, llmJsonCall, h, Except.map]
      rw [hhalf]

/-- C1 (witness): the amended theorem applied at the concrete inputs — the
unparseable reply makes the update error, and the parsed empty object gives
the neutral defaults. -/
theorem hiddenThought_neutral_defaults_amended_witness :
    hiddenThought rlogZero
        (initTracker "agent_a" (s1Profile "agent_a") 2 (65/100))
        "agent_b" c1Bundle = Except.error "JSONDecodeError" ∧
      (inferValuesFromUtterance emptyObjStr = Except.ok (fun _ => 0) ∧
        projectTheirModelOfMe emptyObjStr = Except.ok (fun _ => (1 : ℚ)/2)) :=
  ⟨(hiddenThought_neutral_defaults_amended emptyObjStr
      (initTracker "agent_a" (s1Profile "agent_a") 2 (65/100)) "agent_b"
      rlogZero c1Bundle).1 (by with_unfolding_all rfl),
    (hiddenThought_neutral_defaults_amended emptyObjStr
      (initTracker "agent_a" (s1Profile "agent_a") 2 (65/100)) "agent_b"
      rlogZero c1Bundle).2 (by with_unfolding_all rfl)⟩

-- ---------------------------------------------------------------------------
-- LinguisticAlignmentScorer (apriori/core/alignment_scorer.py)
-- ---------------------------------------------------------------------------

/-- Assoc-list read with default (Python `dict.get` / `defaultdict` read). -/
def assocGetD {α : Type} (l : List (String × α)) (k : String) (d : α) : α :=
  match l.find? fun kv => kv.1 = k with
  | some kv => kv.2
  | none => d

/-- Assoc-list write (Python dict assignment). -/
def assocSet {α : Type} : List (String × α) → String → α → List (String × α)
  | [], k, v => [(k, v)]
  | (k', v') :: rest, k, v =>
    if k' = k then (k, v) :: rest else (k', v') :: assocSet rest k v

/-- Maximal runs of characters satisfying `p` (used for `\w+` token runs and
for `str.split()`). -/
def runsBy (p : Char → Bool) : List Char → List (List Char)
  | [] => []
  | c :: rest =>
    if p c then
      match rest with
      | [] => [[c]]
      | c' :: _ =>
        if p c' then
          match runsBy p rest with
          | r :: rs => (c :: r) :: rs
          | [] => [[c]]
        else [c] :: runsBy p rest
    else runsBy p rest

/-- A `\w` word character (ASCII view, matching the tokens exercised
here). -/
def isWordChar (c : Char) : Bool :=
  c.isAlphanum || c = '_'

/-- `LinguisticAlignmentScorer._tokenize`: `\b\w+\b` runs, lowercased,
keeping tokens of length at least 2. -/
def tokenize (text : String) : List String :=
  ((runsBy isWordChar text.toList).map fun r =>
    String.mk (r.map Char.toLower)).filter fun t => 1 < t.length

/-- Python `str.lower()` (ASCII view). -/
def strLower (s : String) : String :=
  String.mk (s.toList.map Char.toLower)

/-- Python `str.split()` with no argument: whitespace-separated words. -/
def wsSplit (s : String) : List String :=
  (runsBy (fun c => !c.isWhitespace) s.toList).map String.mk

/-- Contiguous-subsequence test on character lists. -/
def listContainsSeq (needle : List Char) : List Char → Bool
  | [] => needle.isEmpty
  | c :: rest => needle.isPrefixOf (c :: rest) || listContainsSeq needle rest

/-- Python `needle in haystack` for strings: contiguous substring. -/
def isSubstr (needle hay : String) : Bool :=
  listContainsSeq needle.toList hay.toList

/-- Increment one phrase count in a `Counter` (insertion-ordered). -/
def bumpPhrase : List (String × ℕ) → String → List (String × ℕ)
  | [], p => [(p, 1)]
  | (p', n) :: rest, p =>
    if p' = p then (p', n + 1) :: rest else (p', n) :: bumpPhrase rest p

/-- `LinguisticAlignmentScorer` state: per-agent phrase counter, per-agent
turn list, rolling alignment history (the embedding cache backs only the
remote-model branch, which the environment abstracts — see
`crossAttentionSimilarity`). -/
structure ScorerState where
  window_size : ℕ
  min_phrase_freq : ℕ
  phrase_registry : List (String × List (String × ℕ))
  turn_registry : List (String × List String)
  alignment_history : List ℚ

/-- A fresh scorer with the default window 20 and minimum phrase
frequency 2. -/
def initScorer : ScorerState :=
  { window_size := 20, min_phrase_freq := 2, phrase_registry := [],
    turn_registry := [], alignment_history := [] }

/-- `LinguisticAlignmentScorer.ingest_turn`: append the raw turn, count its
unigrams and adjacent bigrams. -/
def ingestTurn (st : ScorerState) (agent utterance : String) : ScorerState :=
  let turns := assocGetD st.turn_registry agent []
  let tokens := tokenize utterance
  let reg := assocGetD st.phrase_registry agent []
  let reg := tokens.foldl bumpPhrase reg
  let bigrams := (tokens.zip tokens.tail).map fun p => p.1 ++ " " ++ p.2
  let reg := bigrams.foldl bumpPhrase reg
  { st with
    turn_registry := assocSet st.turn_registry agent (turns ++ [utterance])
    phrase_registry := assocSet st.phrase_registry agent reg }

/-- `LinguisticAlignmentScorer._get_signature_phrases`: phrases with count
at least `min_phrase_freq`. -/
def signaturePhrases (st : ScorerState) (agent : String) : List String :=
  ((assocGetD st.phrase_registry agent []).filter fun pc =>
    st.min_phrase_freq ≤ pc.2).map fun pc => pc.1

/-- `LinguisticAlignmentScorer._compute_absorption`: the fraction of the
donor's signature phrases occurring in the absorber's recent joined text. -/
def computeAbsorption (st : ScorerState) (absorber donor : String) : ℚ :=
  let donorPhrases := signaturePhrases st donor
  if donorPhrases.isEmpty then 0
  else
    let turns := assocGetD st.turn_registry absorber []
    let recent := turns.drop (turns.length - st.window_size)
    let recentText := strLower (String.intercalate " " recent)
    ((donorPhrases.filter fun p => isSubstr (strLower p) recentText).length : ℚ)
      / (donorPhrases.length : ℚ)

/-- `LinguisticAlignmentScorer._find_borrowed_phrases`: the source's
signature phrases adopted (count ≥ `min_phrase_freq`) by the borrower,
sorted by descending borrower count.  (The order among equal counts does not
enter any statement below.) -/
def findBorrowedPhrases (st : ScorerState) (source borrower : String) :
    List String :=
  let borrowerReg := assocGetD st.phrase_registry borrower []
  let borrowed := (signaturePhrases st source).filter fun p =>
    st.min_phrase_freq ≤ assocGetD borrowerReg p 0
  borrowed.insertionSort fun p q =>
    assocGetD borrowerReg q 0 ≤ assocGetD borrowerReg p 0

/-- `LinguisticAlignmentScorer._recent_vocabulary`: distinct tokens of the
last `window_size` turns. -/
def recentVocabulary (st : ScorerState) (agent : String) : List String :=
  let turns := assocGetD st.turn_registry agent []
  (((turns.drop (turns.length - st.window_size)).map tokenize).flatten).dedup

/-- `LinguisticAlignmentScorer._lexical_divergence`:
`1 − |A∩B| / min(|A|,|B|)`, `1.0` when either vocabulary is empty. -/
def lexicalDivergence (st : ScorerState) (a b : String) : ℚ :=
  let va := recentVocabulary st a
  let vb := recentVocabulary st b
  if va.isEmpty || vb.isEmpty then 1
  else 1 - ((va.filter fun t => vb.contains t).length : ℚ)
    / (min va.length vb.length : ℚ)

/-- `LinguisticAlignmentScorer._code_switch_rate`: the fraction of recent
turns whose non-ASCII character density exceeds `0.3`. -/
def codeSwitchRate (st : ScorerState) (agent : String) : ℚ :=
  let turns := assocGetD st.turn_registry agent []
  if turns.isEmpty then 0
  else
    let window := turns.drop (turns.length - st.window_size)
    ((window.countP fun t => !t.isEmpty &&
      decide ((3 : ℚ)/10 <
        ((t.toList.countP fun c => 127 < c.toNat : ℕ) : ℚ)
          / (max t.length 1 : ℚ))) : ℚ) / (window.length : ℚ)

/-- `LinguisticAlignmentScorer._code_switch_sync`. -/
def codeSwitchSync (st : ScorerState) (a b : String) : ℚ :=
  let ra := codeSwitchRate st a
  let rb := codeSwitchRate st b
  max 0 (1 - |ra - rb| / max ra (max rb (1/100)))

/-- The embedding backend seen by the scorer: when the remote model loads,
`_cross_attention_similarity` embeds both agents' recent turns and takes the
cosine of the mean vectors — abstracted here into `semanticOracle` (its
value never enters the claims proved below); when loading raises, the
fallback `1 − lexical_divergence` is used. -/
structure ScorerEnv where
  embedderAvailable : Bool
  semanticOracle : List String → List String → ℚ

/-- `LinguisticAlignmentScorer._cross_attention_similarity`. -/
def crossAttentionSimilarity (env : ScorerEnv) (st : ScorerState)
    (a b : String) : ℚ :=
  let turnsA := assocGetD st.turn_registry a []
  let turnsB := assocGetD st.turn_registry b []
  if turnsA.isEmpty || turnsB.isEmpty then 0
  else if env.embedderAvailable then
    env.semanticOracle (turnsA.drop (turnsA.length - st.window_size))
      (turnsB.drop (turnsB.length - st.window_size))
  else 1 - lexicalDivergence st a b

/-- `LinguisticAlignmentScorer._compute_trend`: compare the mean of the last
three alignment scores with the prior three. -/
def computeTrend (hist : List ℚ) : String :=
  if hist.length < 6 then "stable"
  else
    let recent := hist.drop (hist.length - 3)
    let earlier := (hist.drop (hist.length - 6)).take 3
    let diff := recent.sum / (recent.length : ℚ)
      - earlier.sum / (earlier.length : ℚ)
    if 1/20 < diff then "accelerating"
    else if diff < -(1/20) then "diverging"
    else "stable"

/-- One convergence record (`compute_convergence`'s return dict). -/
structure ConvRecord where
  a_absorbs_b : ℚ
  b_absorbs_a : ℚ
  semantic_alignment : ℚ
  lexical_divergence : ℚ
  code_switch_sync : ℚ
  resilience_delta : ℚ
  convergence_trend : String
  top_borrowed_phrases : List String
  alarm : Bool
  deriving DecidableEq, Repr

/-- `LinguisticAlignmentScorer.compute_convergence`: the full bidirectional
analysis; appends the resilience delta to the alignment history before
computing the trend. -/
def computeConvergence (env : ScorerEnv) (st : ScorerState) (a b : String) :
    ScorerState × ConvRecord :=
  let aab := computeAbsorption st a b
  let bab := computeAbsorption st b a
  let semantic := crossAttentionSimilarity env st a b
  let lexdiv := lexicalDivergence st a b
  let cs := codeSwitchSync st a b
  let top := findBorrowedPhrases st a b
  let delta := 3/10 * semantic + 2/10 * ((aab + bab) / 2) + 2/10 * cs
    + 3/10 * (1 - lexdiv)
  let hist := st.alignment_history ++ [delta]
  ({ st with alignment_history := hist },
    { a_absorbs_b := pyRound 4 aab, b_absorbs_a := pyRound 4 bab,
      semantic_alignment := pyRound 4 semantic,
      lexical_divergence := pyRound 4 lexdiv,
      code_switch_sync := pyRound 4 cs,
      resilience_delta := pyRound 4 delta,
      convergence_trend := computeTrend hist,
      top_borrowed_phrases := top.take 10,
      alarm := decide ((7 : ℚ)/10 < lexdiv) })

/-- `LinguisticAlignmentScorer.detect_withdrawal_signal`: compare the last
`window/2` turns against the prior `window/2`; alert when vocabulary drops
below 60% or mean token length below 50%.  Requires at least `window`
recorded turns. -/
def detectWithdrawalSignal (st : ScorerState) (agent : String)
    (window : ℕ := 10) : Bool :=
  let turns := assocGetD st.turn_registry agent []
  if turns.length < window then false
  else
    let half := window / 2
    let recent := turns.drop (turns.length - half)
    let earlier := (turns.drop (turns.length - window)).take
      (turns.length - half - (turns.length - window))
    let recentVocab := ((recent.map tokenize).flatten).dedup
    let earlierVocab := ((earlier.map tokenize).flatten).dedup
    if earlierVocab.isEmpty then false
    else
      let vocabRatio := (recentVocab.length : ℚ) / (earlierVocab.length : ℚ)
      let recentAvg := ((recent.map fun t => (tokenize t).length).sum : ℚ)
        / (max recent.length 1 : ℚ)
      let earlierAvg := ((earlier.map fun t => (tokenize t).length).sum : ℚ)
        / (max earlier.length 1 : ℚ)
      if earlierAvg = 0 then false
      else
        decide (vocabRatio < 6/10) || decide (recentAvg / earlierAvg < 1/2)

-- ---------------------------------------------------------------------------
-- BeliefCollapseDetector (apriori/core/collapse_detector.py)
-- ---------------------------------------------------------------------------

/-- Detector state: recorded composite risks (the
`overall_collapse_risk` of each entry of `_collapse_history`) and the
assessment counter. -/
structure DetectorState where
  history_window : ℕ
  collapse_history : List ℚ
  assessment_count : ℕ

/-- A fresh detector with the default window 15. -/
def initDetector : DetectorState :=
  { history_window := 15, collapse_history := [], assessment_count := 0 }

/-- One assessment (the dict returned by `assess`, plus the `turn` the
dialogue node stamps onto it). -/
structure Assessment where
  turn : ℕ
  overall_collapse_risk : ℚ
  risk_level : String
  signal_breakdown : List (String × ℚ)
  primary_driver : String
  turns_until_likely_collapse : Option ℤ
  intervention_recommended : Bool
  intervention_type : Option String
  coc_estimate : ℚ
  voc_estimate : ℚ
  is_post_traumatic_growth : Bool

/-- `BeliefCollapseDetector._avg_divergence`: mean stored divergence over a
tracker's epistemic models, `0.0` with no models. -/
def avgDivergence (tr : TrackerState) : ℚ :=
  if tr.epistemic_models.isEmpty then 0
  else (tr.epistemic_models.map fun kv => kv.2.epistemic_divergence).sum
    / (tr.epistemic_models.length : ℚ)

/-- `BeliefCollapseDetector._compute_epistemic_signal`: both trackers'
average divergence, normalized by `0.693`. -/
def computeEpistemicSignal (trA trB : TrackerState) : ℚ :=
  min 1 (((avgDivergence trA + avgDivergence trB) / 2) / (693/1000))

/-- `BeliefCollapseDetector._compute_withdrawal_signal`. -/
def computeWithdrawalSignal (sc : ScorerState) (trA trB : TrackerState) : ℚ :=
  let aWd := detectWithdrawalSignal sc trA.agent_id
  let bWd := detectWithdrawalSignal sc trB.agent_id
  if aWd && bWd then 1 else if aWd || bWd then 1/2 else 0

/-- The detector's `_llm_json_call` followed by
`max(0, min(1, float(raw.get("score", 0.0))))`.  Unlike the tracker, the
detector catches `json.JSONDecodeError` and substitutes a zero score. -/
def detectorLlmScore (response : String) : ℚ :=
  match parseJson (stripFences response) with
  | some obj => max 0 (min 1 (jsonGetNum obj "score" 0))
  | none => 0

/-- `BeliefCollapseDetector._response_length_proxy`: mean content length of
the last 5 turns against the prior 10; needs at least 15 turns. -/
def responseLengthProxy (history : List Turn) : ℚ :=
  if history.length < 15 then 0
  else
    let recent5 := history.drop (history.length - 5)
    let prior10 := (history.drop (history.length - 15)).take 10
    let recentAvg := ((recent5.map fun t => t.content.length).sum : ℚ)
      / (max recent5.length 1 : ℚ)
    let priorAvg := ((prior10.map fun t => t.content.length).sum : ℚ)
      / (max prior10.length 1 : ℚ)
    if priorAvg = 0 then 0
    else
      let ratio := recentAvg / priorAvg
      if 1 ≤ ratio then 0
      else if ratio ≤ 1/5 then 1
      else (1 - ratio) / (8/10)

/-- `BeliefCollapseDetector._classify_risk_level`. -/
def classifyRiskLevel (score : ℚ) : String :=
  if 8/10 < score then "CRITICAL"
  else if 6/10 < score then "HIGH"
  else if 4/10 < score then "MODERATE"
  else if 1/5 < score then "LOW"
  else "STABLE"

/-- First key of maximal value in an insertion-ordered numeric dict
(Python `max(d, key=d.get)` over the signal breakdown). -/
def argmaxAssoc : List (String × ℚ) → Option String
  | [] => none
  | (k, v) :: rest =>
    match argmaxAssoc rest with
    | none => some k
    | some k' =>
      if v < assocGetD rest k' 0 then some k' else some k

/-- `BeliefCollapseDetector.suggest_intervention`. -/
def suggestIntervention (driver level : String) : String :=
  if driver = "epistemic_divergence" ∧ level = "CRITICAL" then "reanchor"
  else if driver = "defensive_attribution" then "deescalate"
  else if driver = "linguistic_withdrawal" ∧
      (level = "HIGH" ∨ level = "CRITICAL") then "validate"
  else if driver = "narrative_incoherence" then "reframe"
  else if level = "CRITICAL" then "deescalate"
  else if level = "HIGH" then "validate"
  else "reframe"

/-- `BeliefCollapseDetector._estimate_coc`. -/
def estimateCoc (breakdown : List (String × ℚ)) : ℚ :=
  4/10 * assocGetD breakdown "epistemic_divergence" 0
    + 35/100 * assocGetD breakdown "defensive_attribution" 0
    + 1/4 * assocGetD breakdown "response_latency_proxy" 0

/-- `BeliefCollapseDetector._estimate_voc`. -/
def estimateVoc (breakdown : List (String × ℚ)) : ℚ :=
  max 0 (1 - 6/10 * assocGetD breakdown "narrative_incoherence" 0
    - 4/10 * assocGetD breakdown "linguistic_withdrawal" 0)

/-- `BeliefCollapseDetector._detect_post_traumatic_growth`: at least five
assessments, a peak above `0.5` that is not among the last two, and a
current risk below 60% of the peak. -/
def detectPostTraumaticGrowth (risks : List ℚ) : Bool :=
  if risks.length < 5 then false
  else
    let peak := risks.foldl max 0
    let peakIdx := (risks.findIdx fun r => r = peak)
    let current := risks.getLastD 0
    decide (peakIdx < risks.length - 2) && decide ((1:ℚ)/2 < peak) &&
      decide (current < peak * (6/10))

/-- The two LLM replies one `assess` call consumes, in call order. -/
structure DetectorReplies where
  defensive : String
  incoherence : String

/-- `BeliefCollapseDetector.assess`: the five-signal weighted composite
(weights 0.30/0.20/0.25/0.15/0.10), risk level, primary driver, projection,
intervention, CoC/VoC estimates and post-traumatic-growth flag; appends the
composite to the detector history.  The defensive/incoherence prompts go to
the model; the environment supplies the replies.  The `turn` field is
stamped by the dialogue node. -/
def assess (replies : DetectorReplies) (dst : DetectorState)
    (trA trB : TrackerState) (sc : ScorerState) (history : List Turn) :
    DetectorState × Assessment :=
  let dst := { dst with assessment_count := dst.assessment_count + 1 }
  let recent := history.drop (history.length - dst.history_window)
  let epistemic := computeEpistemicSignal trA trB
  let withdrawal := computeWithdrawalSignal sc trA trB
  let defensive :=
    if (recent.drop (recent.length - 5)).isEmpty then 0
    else detectorLlmScore replies.defensive
  let incoherence :=
    if recent.isEmpty then 0 else detectorLlmScore replies.incoherence
  let latency := responseLengthProxy history
  let breakdown : List (String × ℚ) :=
    [("epistemic_divergence", pyRound 4 epistemic),
     ("linguistic_withdrawal", pyRound 4 withdrawal),
     ("defensive_attribution", pyRound 4 defensive),
     ("narrative_incoherence", pyRound 4 incoherence),
     ("response_latency_proxy", pyRound 4 latency)]
  let overall := max 0 (min 1
    (30/100 * assocGetD breakdown "epistemic_divergence" 0
      + 20/100 * assocGetD breakdown "linguistic_withdrawal" 0
      + 25/100 * assocGetD breakdown "defensive_attribution" 0
      + 15/100 * assocGetD breakdown "narrative_incoherence" 0
      + 10/100 * assocGetD breakdown "response_latency_proxy" 0))
  let level := classifyRiskLevel overall
  let driver := (argmaxAssoc breakdown).getD "epistemic_divergence"
  let turnsUntil := projectTurnsUntilCollapse dst.collapse_history overall
  let needed := level = "CRITICAL" ∨ level = "HIGH"
  let assessment : Assessment :=
    { turn := 0
      overall_collapse_risk := pyRound 4 overall
      risk_level := level
      signal_breakdown := breakdown
      primary_driver := driver
      turns_until_likely_collapse := turnsUntil
      intervention_recommended := needed
      intervention_type :=
        if needed then some (suggestIntervention driver level) else none
      coc_estimate := pyRound 4 (estimateCoc breakdown)
      voc_estimate := pyRound 4 (estimateVoc breakdown)
      is_post_traumatic_growth :=
        detectPostTraumaticGrowth dst.collapse_history }
  ({ dst with collapse_history := dst.collapse_history ++ [pyRound 4 overall] },
    assessment)

-- ---------------------------------------------------------------------------
-- Black-swan generation (apriori/core/event_generator.py)
-- ---------------------------------------------------------------------------

/-- Python `s[:n]`. -/
def strTake (n : ℕ) (s : String) : String :=
  String.mk (s.toList.take n)

/-- `BlackSwanEvent` (apriori/models/events.py), rationals for floats. -/
structure BlackSwanEventL where
  event_type : String
  target_vulnerability_axis : String
  severity : ℚ
  narrative_description : String
  decision_point : String
  expected_collapse_vector : List (String × ℚ)
  elasticity_threshold : ℚ
  deriving DecidableEq, Repr

/-- `StochasticEventGenerator._map_axis_to_event_type`
(`_AXIS_TO_EVENT`, falling back to `values_conflict`). -/
def mapAxisToEventType (axis : String) : String :=
  if axis = "autonomy" then "career_disruption"
  else if axis = "security" then "financial_collapse"
  else if axis = "achievement" then "career_disruption"
  else if axis = "intimacy" then "betrayal"
  else if axis = "novelty" then "values_conflict"
  else if axis = "stability" then "financial_collapse"
  else if axis = "power" then "external_threat"
  else if axis = "belonging" then "loss"
  else "values_conflict"

/-- `StochasticEventGenerator._generate_narrative`: strip fences, parse —
catching the parse error here (unlike the tracker): on failure the first 500
characters become the narrative.  Returns (narrative, decision point) with
the `.get` defaults applied by `generate_black_swan`. -/
def generateNarrative (response : String) : String × String :=
  match parseJson (stripFences response) with
  | some obj =>
    (jsonGetStr obj "narrative" "Crisis event occurred.",
      jsonGetStr obj "decision_point" "Both parties must decide how to respond.")
  | none =>
    (strTake 500 (stripFences response),
      "Both parties must decide how to respond to this crisis.")

/-- `StochasticEventGenerator._predict_collapse_vector`:
`severity · (1 − entropyTolerance) · values[axis]`, plus 30% spillover. -/
def predictCollapseVector (a b : ShadowVector) (axis : ValueKey)
    (severity : ℚ) : List (String × ℚ) :=
  [a, b].map fun sh =>
    let primary := severity * (1 - sh.entropy_tolerance) * sh.values axis
    (sh.agent_id, pyRound 4 (primary + primary * (3/10)))

/-- `StochasticEventGenerator._compute_elasticity_threshold`. -/
def computeElasticityThreshold (a b : ShadowVector) : ℚ :=
  let avgEntropy := (a.entropy_tolerance + b.entropy_tolerance) / 2
  let secureCount : ℕ :=
    ([a, b].filter fun s => s.attachment_style = .secure).length
  max (5/100) (min (95/100)
    (4/10 - 1/10 * avgEntropy - 5/100 * (secureCount : ℚ)))

/-- `StochasticEventGenerator.generate_black_swan`.  `paretoDraw` models the
distribution-specific raw value (`(paretovariate(α) − 1)/4` for the default
pareto) drawn from the global `random` right after `random.seed(seed)` — a
pure function of the seed, supplied by the environment.  `narrativeResponse`
is the model's reply to the narrative prompt.  `none` is returned only for
an empty key enumeration, which cannot occur. -/
def generateBlackSwan (keyOrder : List ValueKey) (paretoDraw : ℚ)
    (narrativeResponse : String) (a b : ShadowVector)
    (severity_override : Option ℚ) : Option BlackSwanEventL :=
  (identifySharedVulnerability keyOrder a b).map fun av =>
    let severity := match severity_override with
      | some s => s
      | none => sampleSeverity paretoDraw av.2
    let nd := generateNarrative narrativeResponse
    { event_type := mapAxisToEventType (keyName av.1)
      target_vulnerability_axis := keyName av.1
      severity := pyRound 4 severity
      narrative_description := nd.1
      decision_point := nd.2
      expected_collapse_vector := predictCollapseVector a b av.1 severity
      elasticity_threshold := pyRound 4 (computeElasticityThreshold a b) }

-- ---------------------------------------------------------------------------
-- Dialogue state machine (apriori/agents/dialogue_graph.py)
-- ---------------------------------------------------------------------------

/-- The full per-timeline state: the LangGraph `DialogueState` plus the
component instances created by `build_dialogue_graph` (trackers with the
default depth 2 and threshold 0.65, scorer, detector).  Wall-clock
timestamps are a logical clock. -/
structure SimState where
  pair_id : String
  turn_number : ℕ
  conversation_history : List Turn
  active_crisis : Option BlackSwanEventL
  crisis_injected_at_turn : Option ℕ
  collapse_assessments : List Assessment
  linguistic_convergence_log : List (ℕ × ConvRecord)
  simulation_complete : Bool
  homeostasis_reached : Bool
  final_resilience_score : ℚ
  tomA : TrackerState
  tomB : TrackerState
  scorer : ScorerState
  detector : DetectorState
  clock : ℕ

/-- The deterministic environment of one timeline: the injected
`LanguageModel`'s replies per call site and call index, the embedding
backend, the seeded severity draw, and the abstract logarithm.  The system
prompts built by `_build_system_prompt` and the tracker/detector prompts
affect only the text sent to the model; a deterministic mock is a function
from call site and order to reply. -/
structure SimEnv where
  tomA_replies : ℕ → LlmBundle
  tomB_replies : ℕ → LlmBundle
  genA_reply : ℕ → String
  genB_reply : ℕ → String
  detector_replies : ℕ → DetectorReplies
  scorerEnv : ScorerEnv
  seededPareto : Option ℤ → ℚ
  crisisNarrative : String
  rlog : ℚ → ℚ

/-- The initial `DialogueState` of `run_simulation`, with the fresh
components of `build_dialogue_graph`. -/
def initSimState (shadowA shadowB : ShadowVector) : SimState :=
  { pair_id := shadowA.agent_id ++ "_" ++ shadowB.agent_id
    turn_number := 0, conversation_history := [], active_crisis := none
    crisis_injected_at_turn := none, collapse_assessments := []
    linguistic_convergence_log := [], simulation_complete := false
    homeostasis_reached := false, final_resilience_score := 0
    tomA := initTracker shadowA.agent_id shadowA 2 (65/100)
    tomB := initTracker shadowB.agent_id shadowB 2 (65/100)
    scorer := initScorer, detector := initDetector, clock := 0 }

/-- The most recent utterance by `agent` in the history, `""` if none. -/
def lastUtteranceBy (history : List Turn) (agent : String) : String :=
  match history.reverse.find? fun t => t.role = agent with
  | some t => t.content
  | none => ""

/-- `node_hidden_thought_a`: agent A's epistemic update; the last B
utterance (or the boot placeholder) feeds only the prompt, which the
environment abstracts.  A tracker parse failure propagates. -/
def nodeHiddenThoughtA (env : SimEnv) (shadowB : ShadowVector)
    (st : SimState) : Except String SimState :=
  (hiddenThought env.rlog st.tomA shadowB.agent_id
    (env.tomA_replies st.tomA.turn_number)).map fun r =>
      { st with tomA := r.1 }

/-- `node_hidden_thought_b`: symmetric, but skipped entirely when A has not
spoken yet (`if last_a:`). -/
def nodeHiddenThoughtB (env : SimEnv) (shadowA : ShadowVector)
    (st : SimState) : Except String SimState :=
  let lastA := lastUtteranceBy st.conversation_history shadowA.agent_id
  if lastA = "" then pure st
  else
    (hiddenThought env.rlog st.tomB shadowA.agent_id
      (env.tomB_replies st.tomB.turn_number)).map fun r =>
        { st with tomB := r.1 }

/-- `node_generate_response_a`: the model's reply (stripped) becomes a new
turn and is ingested by the scorer. -/
def nodeGenA (env : SimEnv) (shadowA : ShadowVector) (st : SimState) :
    SimState :=
  let content := pyStrip (env.genA_reply st.turn_number)
  { st with
    conversation_history := st.conversation_history ++
      [{ role := shadowA.agent_id, content := content, timestamp := st.clock }]
    scorer := ingestTurn st.scorer shadowA.agent_id content
    clock := st.clock + 1 }

/-- `node_generate_response_b`: as for A, plus the turn-number increment. -/
def nodeGenB (env : SimEnv) (shadowB : ShadowVector) (st : SimState) :
    SimState :=
  let content := pyStrip (env.genB_reply st.turn_number)
  { st with
    conversation_history := st.conversation_history ++
      [{ role := shadowB.agent_id, content := content, timestamp := st.clock }]
    scorer := ingestTurn st.scorer shadowB.agent_id content
    turn_number := st.turn_number + 1
    clock := st.clock + 1 }

/-- `node_linguistic_update`: run the convergence analysis, append the
record tagged with the current turn. -/
def nodeLinguisticUpdate (env : SimEnv) (shadowA shadowB : ShadowVector)
    (st : SimState) : SimState :=
  let r := computeConvergence env.scorerEnv st.scorer
    shadowA.agent_id shadowB.agent_id
  { st with
    scorer := r.1
    linguistic_convergence_log :=
      st.linguistic_convergence_log ++ [(st.turn_number, r.2)] }

/-- `node_collapse_check`: run `assess`, stamp the turn, append. -/
def nodeCollapseCheck (env : SimEnv) (st : SimState) : SimState :=
  let r := assess (env.detector_replies st.detector.assessment_count)
    st.detector st.tomA st.tomB st.scorer st.conversation_history
  { st with
    detector := r.1
    collapse_assessments :=
      st.collapse_assessments ++ [{ r.2 with turn := st.turn_number }] }

/-- `node_crisis_injection`: `run_simulation` always pre-generates the
crisis, so the generator fallback inside the node is dead; the SYSTEM
message is appended and the crisis recorded. -/
def nodeCrisisInjection (crisis : BlackSwanEventL) (st : SimState) :
    SimState :=
  { st with
    conversation_history := st.conversation_history ++
      [{ role := "SYSTEM"
         content := "[EXTERNAL EVENT]: " ++ crisis.narrative_description ++
           "\n\n[DECISION POINT]: " ++ crisis.decision_point
         timestamp := st.clock }]
    active_crisis := some crisis
    crisis_injected_at_turn := some st.turn_number
    clock := st.clock + 1 }

/-- The future-orientation markers of `node_homeostasis_check`
(`we'll`, `we'd`, `let's` spelled with an apostrophe character). -/
def futureMarkers : List String :=
  let apo := String.singleton (Char.ofNat 39)
  ["we", "us", "our", "together",
   "we" ++ apo ++ "ll", "we" ++ apo ++ "d", "let" ++ apo ++ "s"]

/-- `node_homeostasis_check`: the five criteria and the final-resilience
computation. -/
def nodeHomeostasisCheck (st : SimState) : SimState :=
  let assessments := st.collapse_assessments
  let recentA := assessments.drop (assessments.length - 5)
  let noCritical := recentA.all fun a => a.risk_level ≠ "CRITICAL"
  let latestConv := st.linguistic_convergence_log.getLast?
  let trend := match latestConv with
    | some lc => lc.2.convergence_trend
    | none => "stable"
  let trendOk := trend = "stable" || trend = "accelerating"
  let agentTurns := (st.conversation_history.drop
    (st.conversation_history.length - 5)).filter fun t => t.role ≠ "SYSTEM"
  let hasFuture := agentTurns.any fun t =>
    (wsSplit (strLower t.content)).any fun w => futureMarkers.contains w
  let crisisOk := match st.active_crisis with
    | some crisis =>
      let latestDelta := match latestConv with
        | some lc => lc.2.resilience_delta
        | none => (1 : ℚ)/2
      decide (crisis.elasticity_threshold < latestDelta)
    | none => true
  let homeo := noCritical && trendOk && hasFuture && crisisOk &&
    decide (8 ≤ st.turn_number)
  let resilience :=
    if recentA.isEmpty then (1 : ℚ)/2
    else 1 - (recentA.map fun a => a.overall_collapse_risk).sum
      / (recentA.length : ℚ)
  let resilience := match latestConv with
    | some lc => min 1 (resilience + lc.2.resilience_delta * (3/10))
    | none => resilience
  { st with
    homeostasis_reached := homeo
    final_resilience_score := pyRound 4 resilience }

/-- One full exchange: the linear chain
`hidden_thought_a → generate_a → hidden_thought_b → generate_b →
linguistic_update → homeostasis_check`. -/
def runExchange (env : SimEnv) (shadowA shadowB : ShadowVector)
    (st : SimState) : Except String SimState := do
  let st ← nodeHiddenThoughtA env shadowB st
  let st := nodeGenA env shadowA st
  let st ← nodeHiddenThoughtB env shadowA st
  let st := nodeGenB env shadowB st
  let st := nodeLinguisticUpdate env shadowA shadowB st
  pure (nodeHomeostasisCheck st)

/-- The cyclic graph: run exchanges and follow the conditional edge
(`should_continue`) until `"end"`.  Each exchange increments
`turn_number`, so `maxTurns + 1` iterations always reach the end; the fuel
only renders the recursion structural. -/
def runLoop (env : SimEnv) (shadowA shadowB : ShadowVector)
    (crisis : BlackSwanEventL) (maxTurns crisisTurn : ℕ) :
    ℕ → SimState → Except String SimState
  | 0, st => pure st
  | fuel + 1, st => do
    let st ← runExchange env shadowA shadowB st
    match shouldContinue maxTurns crisisTurn
        ⟨st.simulation_complete, st.turn_number, st.crisis_injected_at_turn⟩ with
    | "end" => pure st
    | "check_collapse" =>
      runLoop env shadowA shadowB crisis maxTurns crisisTurn fuel
        (nodeCollapseCheck env st)
    | "inject_crisis" =>
      runLoop env shadowA shadowB crisis maxTurns crisisTurn fuel
        (nodeCrisisInjection crisis st)
    | _ => runLoop env shadowA shadowB crisis maxTurns crisisTurn fuel st

/-- The metric extraction at the end of `run_simulation` (lines 707–749):
belief snapshots and collapse count from the assessments, final convergence
from the last convergence record, and — the heart of claim C2 —
`antifragile = final_resilience > 0.6 ∧ a crisis was injected`, with no
reference to `homeostasis_reached`. -/
def extractTimelineResult (uuid pairId : String) (seed : Option ℤ)
    (crisis : BlackSwanEventL) (st : SimState) : TimelineResult :=
  let assessments := st.collapse_assessments
  let finalConvergence := match st.linguistic_convergence_log.getLast? with
    | some lc => lc.2.resilience_delta
    | none => (1 : ℚ)/2
  let finalResilience := st.final_resilience_score
  { timeline_id := uuid
    seed := seed.getD 0
    pair_id := pairId
    crisis_severity := crisis.severity
    crisis_axis := crisis.target_vulnerability_axis
    reached_homeostasis := st.homeostasis_reached
    narrative_elasticity := min 1 (max 0 finalConvergence)
    final_resilience_score := finalResilience
    antifragile := decide ((3 : ℚ)/5 < finalResilience) &&
      decide (st.crisis_injected_at_turn ≠ none)
    turns_total := st.turn_number
    belief_collapse_events := (assessments.filter fun a =>
      a.risk_level = "CRITICAL" ∨ a.risk_level = "HIGH").length
    linguistic_convergence_final := pyRound 4 finalConvergence
    full_transcript := st.conversation_history
    belief_state_snapshots := assessments.map fun a =>
      { turn := a.turn, risk := a.overall_collapse_risk,
        risk_level := a.risk_level } }

/-- The crisis generation and graph run of `run_simulation`: pre-generate
the crisis (severity drawn from the seeded global `random`), build the
graph, stream to completion through the crisis interrupt. -/
def runSimulationCore (env : SimEnv) (keyOrder : List ValueKey)
    (shadowA shadowB : ShadowVector) (maxTurns crisisTurn : ℕ)
    (seed : Option ℤ) : Except String (BlackSwanEventL × SimState) :=
  match generateBlackSwan keyOrder (env.seededPareto seed)
      env.crisisNarrative shadowA shadowB none with
  | none => .error "empty key enumeration"
  | some crisis =>
    (runLoop env shadowA shadowB crisis maxTurns crisisTurn
      (maxTurns + 1) (initSimState shadowA shadowB)).map fun final =>
        (crisis, final)

/-- `run_simulation`: the graph run followed by the metric extraction.
`uuid` is the `uuid4()` draw consumed by the result's `timeline_id` default
factory. -/
def runSimulation (uuid : String) (env : SimEnv) (keyOrder : List ValueKey)
    (shadowA shadowB : ShadowVector) (maxTurns crisisTurn : ℕ)
    (seed : Option ℤ) : Except String TimelineResult :=
  (runSimulationCore env keyOrder shadowA shadowB maxTurns crisisTurn
    seed).map fun cs =>
      extractTimelineResult uuid (shadowA.agent_id ++ "_" ++ shadowB.agent_id)
        seed cs.1 cs.2

-- ---------------------------------------------------------------------------
-- C2: antifragile without homeostasis
-- ---------------------------------------------------------------------------

/-- The fixed reply both mock agents produce: future-oriented, identical on
both sides (driving the linguistic convergence to its maximum). -/
def c2Phrase : String := "we are building this together"

/-- The tracker replies of the C2 environment: a parsed empty JSON object
everywhere (neutral deltas and projections through the documented
defaults). -/
def c2TomBundle : LlmBundle :=
  { infer := emptyObjStr, project := emptyObjStr, l3 := emptyObjStr,
    verbalize := "ok", strategy := emptyObjStr }

/-- A deterministic environment: a mock `LanguageModel` replying with the
empty JSON object to every structured prompt and with `c2Phrase` to every
generation prompt, no embedding backend (the documented lexical fallback),
and a zero severity draw.  `rlog` is instantiated with `rlogZero`; on this
run every logarithm is taken at `1` (the divergence is always computed
between two identical neutral value maps), where `log 1 = 0` agrees with
`math.log`, and no branch that reaches the result reads a logarithm. -/
def c2Env : SimEnv :=
  { tomA_replies := fun _ => c2TomBundle
    tomB_replies := fun _ => c2TomBundle
    genA_reply := fun _ => c2Phrase
    genB_reply := fun _ => c2Phrase
    detector_replies := fun _ =>
      { defensive := emptyObjStr, incoherence := emptyObjStr }
    scorerEnv := { embedderAvailable := false, semanticOracle := fun _ _ => 0 }
    seededPareto := fun _ => 0
    crisisNarrative := "The startup collapsed overnight."
    rlog := rlogZero }

/-- A two-exchange timeline with the crisis injected after the first
exchange: `run_simulation` with `max_turns = 2`, `crisis_at_turn = 1`,
seed 7. -/
def runSimulationC2 : Except String TimelineResult :=
  runSimulation "uuid-1" c2Env sortedValueKeys (s1Profile "agent_a")
    (s1Profile "agent_b") 2 1 (some 7)

set_option maxRecDepth 100000 in
/-- C2 (counterexample).  Running the timeline `runSimulationC2` to
completion produces a result with `antifragile = true` and
`reachedHomeostasis = false`: the crisis is injected at turn 1, both agents
keep speaking identical future-oriented sentences, so the final resilience
is `0.5 + 0.3·1.0 = 0.8 > 0.6`, while homeostasis fails its fifth criterion
(`turnNumber ≥ 8`) at the two-exchange cap.  `antifragile` is computed from
the resilience and the crisis flag only — it does not consult
`homeostasis_reached`. -/
theorem run_simulation_antifragile_without_homeostasis :
    (runSimulationC2.map fun r => (r.antifragile, r.reached_homeostasis)) =
      Except.ok (true, false) := by
  with_unfolding_all rfl

/-- C2 (amended).  What the extraction of `run_simulation` does guarantee
for every final state: an antifragile result has final resilience above
`0.6` and a crisis injected during the run — but not that homeostasis was
reached. -/
theorem extractTimelineResult_antifragile_amended (uuid pairId : String)
    (seed : Option ℤ) (crisis : BlackSwanEventL) (st : SimState)
    (h : (extractTimelineResult uuid pairId seed crisis st).antifragile
      = true) :
    (3 : ℚ)/5 <
        (extractTimelineResult uuid pairId seed crisis st).final_resilience_score
      ∧ st.crisis_injected_at_turn ≠ none := by
  unfold extractTimelineResult at h ⊢
  simp only [Bool.and_eq_true, decide_eq_true_eq] at h
  exact ⟨h.1, h.2⟩

/-- C2 (witness): the amended implication at a concrete final state with
resilience `0.8` and a crisis injected at turn 1. -/
theorem extractTimelineResult_antifragile_amended_witness :
    (3 : ℚ)/5 <
        (extractTimelineResult "u" "p" (some 7)
          { event_type := "loss", target_vulnerability_axis := "belonging",
            severity := 1/2, narrative_description := "n",
            decision_point := "d", expected_collapse_vector := [],
            elasticity_threshold := 1/4 }
          { initSimState (s1Profile "agent_a") (s1Profile "agent_b") with
            final_resilience_score := 8/10,
            crisis_injected_at_turn := some 1 }).final_resilience_score
      ∧ ({ initSimState (s1Profile "agent_a") (s1Profile "agent_b") with
            final_resilience_score := 8/10,
            crisis_injected_at_turn := some 1 } :
          SimState).crisis_injected_at_turn ≠ none :=
  extractTimelineResult_antifragile_amended "u" "p" (some 7) _ _
    (by with_unfolding_all rfl)

-- ---------------------------------------------------------------------------
-- RelationalMonteCarlo ensemble (apriori/core/monte_carlo.py, C3)
-- ---------------------------------------------------------------------------

/-- `RelationalMonteCarlo._generate_parameter_sets`.  `globalPareto` models
the process-global `numpy` generator (`np.random.pareto(1.5)` draws a fresh
value from shared mutable state on every call; `paretoOffset` is the number
of draws made earlier in the process, e.g. by a previous ensemble run).
`seededRandint` models `random.Random(seed).randint(*crisis_turn_range)`, a
pure function of the seed.  The per-timeline seeds are `1 … n`. -/
def generateParameterSets (globalPareto : ℕ → ℚ) (paretoOffset : ℕ)
    (seededRandint : ℤ → ℕ) (n : ℕ) (sevLo sevHi : ℚ) : List ParamSet :=
  (List.range n).map fun (i : ℕ) =>
    { seed := (i : ℤ) + 1
      severity := min sevHi (max sevLo ((globalPareto (paretoOffset + i) + 1) / 10))
      crisis_at_turn := seededRandint ((i : ℤ) + 1) }

/-- `RelationalMonteCarlo._run_single_timeline`: run one timeline, catching
any exception into the failed placeholder (with the correct seed — unlike
the outer `run_ensemble` handler of claim C10).  The ensemble's sampled
`severity` parameter is accepted by the Python function as
`severity_override` but never forwarded to `run_simulation`: the timeline
draws its own severity from the seeded global `random`. -/
def runSingleTimeline (uuid : String) (env : SimEnv)
    (shadowA shadowB : ShadowVector) (maxTurns : ℕ) (pairId : String)
    (seed : ℤ) (crisisAtTurn : ℕ) : TimelineResult :=
  match runSimulation uuid env sortedValueKeys shadowA shadowB maxTurns
      crisisAtTurn (some seed) with
  | .ok r => r
  | .error _ => makeFailedTimeline uuid pairId seed

/-- Indexed map (the dispatch loop of `run_ensemble`: the `i`-th parameter
set becomes the `i`-th task, in order). -/
def mapWithIndex {α β : Type} (f : ℕ → α → β) : ℕ → List α → List β
  | _, [] => []
  | i, a :: rest => f i a :: mapWithIndex f (i + 1) rest

/-- `RelationalMonteCarlo.run_ensemble` under deterministic mocks and no
failures: the `i`-th task's `uuid4()` draw is `uuidStream (uuidOffset + i)`
(`uuidOffset` counts draws made earlier in the process); results are
appended in parameter order (batching only groups the same order). -/
def runEnsembleModel (uuidStream : ℕ → String) (uuidOffset : ℕ)
    (globalPareto : ℕ → ℚ) (paretoOffset : ℕ) (seededRandint : ℤ → ℕ)
    (env : SimEnv) (shadowA shadowB : ShadowVector) (maxTurns : ℕ)
    (pairId : String) (n : ℕ) (sevLo sevHi : ℚ) : List TimelineResult :=
  mapWithIndex
    (fun i p => runSingleTimeline (uuidStream (uuidOffset + i)) env
      shadowA shadowB maxTurns pairId p.seed p.crisis_at_turn)
    0
    (generateParameterSets globalPareto paretoOffset seededRandint n
      sevLo sevHi)

/-- The uuid stream of the C3 counterexample: distinct ids for the first
two draws of the process. -/
def uuidStreamC3 : ℕ → String :=
  fun k => if k = 0 then "a" else "b"

/-- First ensemble run of the process: one timeline, uuid draw 0 and global
pareto draw 0. -/
def c3Run1 : List TimelineResult :=
  runEnsembleModel uuidStreamC3 0 (fun k => (k : ℚ)) 0 (fun _ => 5) c2Env
    (s1Profile "agent_a") (s1Profile "agent_b") 1 "pair" 1 (1/20) (19/20)

/-- Second ensemble run of the same process with the identical seed
sequence and mocks: the global entropy sources have advanced by one draw
each. -/
def c3Run2 : List TimelineResult :=
  runEnsembleModel uuidStreamC3 1 (fun k => (k : ℚ)) 1 (fun _ => 5) c2Env
    (s1Profile "agent_a") (s1Profile "agent_b") 1 "pair" 1 (1/20) (19/20)

set_option maxRecDepth 100000 in
/-- C3 (counterexample).  Two ensemble runs with identical seed sequences
(`[1]`), identical configuration and identical deterministic mocks are not
byte-identical: `timeline_id` comes from `uuid4()` (process-global entropy),
so the serialized results differ; the parameter-set severities also differ,
because `_generate_parameter_sets` draws them from the un-seeded global
`numpy` generator (that difference alone is invisible in the results, since
the sampled severity is never forwarded to `run_simulation`). -/
theorem run_ensemble_not_byte_identical :
    (c3Run1.map fun r => r.seed) = (c3Run2.map fun r => r.seed) ∧
      (c3Run1.map fun r => r.timeline_id) = ["a"] ∧
      (c3Run2.map fun r => r.timeline_id) = ["b"] ∧
      c3Run1 ≠ c3Run2 ∧
      (generateParameterSets (fun k => (k : ℚ)) 0 (fun _ => 5) 1
          (1/20) (19/20)).map (fun p => p.severity) ≠
        (generateParameterSets (fun k => (k : ℚ)) 1 (fun _ => 5) 1
          (1/20) (19/20)).map (fun p => p.severity) := by
  refine ⟨?_, ?_, ?_, ?_, ?_⟩ <;> with_unfolding_all decide

/-- Replace the uuid4-generated `timeline_id` by a fixed value. -/
def stripTimelineId (r : TimelineResult) : TimelineResult :=
  { r with timeline_id := "" }

theorem stripTimelineId_runSingleTimeline (u u' : String) (env : SimEnv)
    (shadowA shadowB : ShadowVector) (maxTurns : ℕ) (pairId : String)
    (seed : ℤ) (crisisAtTurn : ℕ) :
    stripTimelineId
        (runSingleTimeline u env shadowA shadowB maxTurns pairId seed
          crisisAtTurn) =
      stripTimelineId
        (runSingleTimeline u' env shadowA shadowB maxTurns pairId seed
          crisisAtTurn) := by
  unfold runSingleTimeline runSimulation
  cases hc : runSimulationCore env sortedValueKeys shadowA shadowB maxTurns
      crisisAtTurn (some seed) with
  | error e => simp [Except.map, stripTimelineId, makeFailedTimeline]
  | ok cs => simp [Except.map, stripTimelineId, extractTimelineResult]

theorem mapWithIndex_stripId_congr (u1 u2 : ℕ → String) (uo1 uo2 : ℕ)
    (env : SimEnv) (shadowA shadowB : ShadowVector) (maxTurns : ℕ)
    (pairId : String) :
    ∀ (ps qs : List ParamSet) (j : ℕ),
      List.Forall₂
        (fun p q => p.seed = q.seed ∧ p.crisis_at_turn = q.crisis_at_turn)
        ps qs →
      mapWithIndex
          (fun i p => stripTimelineId (runSingleTimeline (u1 (uo1 + i)) env
            shadowA shadowB maxTurns pairId p.seed p.crisis_at_turn)) j ps =
        mapWithIndex
          (fun i q => stripTimelineId (runSingleTimeline (u2 (uo2 + i)) env
            shadowA shadowB maxTurns pairId q.seed q.crisis_at_turn)) j qs := by
  intro ps qs j h
  induction h generalizing j with
  | nil => rfl
  | @cons p q ps' qs' hpq _ ih =>
    simp only [mapWithIndex]
    rw [hpq.1, hpq.2, ih (j + 1),
      stripTimelineId_runSingleTimeline (u1 (uo1 + j)) (u2 (uo2 + j))]

theorem map_mapWithIndex {α β γ : Type} (h : β → γ) (f : ℕ → α → β) :
    ∀ (j : ℕ) (l : List α),
      (mapWithIndex f j l).map h = mapWithIndex (fun i a => h (f i a)) j l := by
  intro j l
  induction l generalizing j with
  | nil => rfl
  | cons a rest ih => simp [mapWithIndex, ih]

theorem forall₂_map_range {R : ParamSet → ParamSet → Prop}
    (f g : ℕ → ParamSet) (h : ∀ x, R (f x) (g x)) :
    ∀ l : List ℕ, List.Forall₂ R (l.map f) (l.map g) := by
  intro l
  induction l with
  | nil => simp
  | cons x rest ih => exact List.Forall₂.cons (h x) ih

/-- C3 (amended).  What does hold: with identical seed sequences and
deterministic mocks, the results are identical modulo the uuid4-generated
`timeline_id` — regardless of where either run's global `numpy` stream or
uuid stream stands, and even regardless of the configured severity range,
because the sampled severity is dead (never forwarded); the seed-derived
crisis turn and the seeded in-dialogue severity draw coincide. -/
theorem runEnsembleModel_eq_modulo_uuid (u1 u2 : ℕ → String)
    (uo1 uo2 : ℕ) (g1 g2 : ℕ → ℚ) (po1 po2 : ℕ) (seededRandint : ℤ → ℕ)
    (env : SimEnv) (shadowA shadowB : ShadowVector) (maxTurns : ℕ)
    (pairId : String) (n : ℕ) (lo1 hi1 lo2 hi2 : ℚ) :
    (runEnsembleModel u1 uo1 g1 po1 seededRandint env shadowA shadowB
        maxTurns pairId n lo1 hi1).map stripTimelineId =
      (runEnsembleModel u2 uo2 g2 po2 seededRandint env shadowA shadowB
        maxTurns pairId n lo2 hi2).map stripTimelineId := by
  unfold runEnsembleModel generateParameterSets
  rw [map_mapWithIndex, map_mapWithIndex]
  exact mapWithIndex_stripId_congr u1 u2 uo1 uo2 env shadowA shadowB
    maxTurns pairId _ _ 0
    (forall₂_map_range _ _ (fun x => ⟨rfl, rfl⟩) (List.range n))

set_option maxRecDepth 100000 in
/-- C3 (witness): the amended modulo-uuid equality at the two concrete runs
of the counterexample. -/
theorem runEnsembleModel_eq_modulo_uuid_witness :
    c3Run1.map stripTimelineId = c3Run2.map stripTimelineId :=
  runEnsembleModel_eq_modulo_uuid uuidStreamC3 uuidStreamC3 0 1
    (fun k => (k : ℚ)) (fun k => (k : ℚ)) 0 1 (fun _ => 5) c2Env
    (s1Profile "agent_a") (s1Profile "agent_b") 1 "pair" 1
    (1/20) (19/20) (1/20) (19/20)

end Apriori
